import Mathlib

/-!
Verification of the IS1300 traffic-light controller (Hazofinho/IS1300-Embedded-Systems).

This file shallowly embeds the C sources as pure functions on an explicit
system state `Sys`:

* `timer_config.h`   — the timing constants;
* `595_shiftreg.c`   — the shift-register buffer, `set_pin`/`clear_pin`,
  `toggle_pedestrian`, `go_pedestrian`, `stop_pedestrian`,
  `go_intersection`, `stop_intersection` (their function-local `static`
  variables become fields of `Sys`);
* `traffic_functions.c` — `no_active_cars`, `active_cars_at`,
  `stop_and_resetTimer` (inlined as record updates);
* `clock.c`          — the EXTI button/car ISRs and the TIM3/TIM5
  period-elapsed callbacks;
* `traffic.c`        — one iteration of the `Traffic` polling loop
  (`loopIter`), including the C `switch` fall-through from
  `case Intersection1` into `case Intersection2` and from
  `case Intersection2` into `case Wait20s` (neither case ends in `break`).

Hardware timers are modelled as a running flag plus a counter; while a
timer runs its counter may be changed arbitrarily by an environment step
(an over-approximation of counting and wrap-around).  Interrupts are
modelled as atomic steps between loop iterations.  `Step` collects the
loop iteration, the ISRs, the car-sensor updates, and the timer ticks;
`Reachable` is its reflexive-transitive closure from the reset state.
-/

namespace TrafficSys

/-! ### Timing constants (`timer_config.h`) -/

def TIMER_2s : Nat := 3999 - 100
def TIMER_5s : Nat := 9999 - 100
def toggle_Freq : Nat := 249
def orange_Delay : Nat := 5999 - 100
def pedestrian_Delay : Nat := orange_Delay + TIMER_2s
def transition_Time : Nat := 30000
def red_delay_Max : Nat := ((40000 - transition_Time) - 1) - 100
def green_Delay : Nat := ((60000 - transition_Time) - 1) - 100

/-! ### Light masks (`595_shiftreg.h`) -/

def TL1_Red : Nat := 0x010000
def TL1_Yellow : Nat := 0x020000
def TL1_Green : Nat := 0x040000
def PL1_Red : Nat := 0x080000
def PL1_Green : Nat := 0x100000
def PL1_Blue : Nat := 0x200000

def TL2_Red : Nat := 0x0100
def TL2_Yellow : Nat := 0x0200
def TL2_Green : Nat := 0x0400
def PL2_Red : Nat := 0x0800
def PL2_Green : Nat := 0x1000
def PL2_Blue : Nat := 0x2000

def TL3_Red : Nat := 0x01
def TL3_Yellow : Nat := 0x02
def TL3_Green : Nat := 0x04
def TL4_Red : Nat := 0x08
def TL4_Yellow : Nat := 0x10
def TL4_Green : Nat := 0x20

def init_state : Nat :=
  ((TL2_Green ||| TL4_Green) ||| PL2_Red) ||| ((TL1_Red ||| TL3_Red) ||| PL1_Green)

/-! ### The controller state -/

/-- The `states` enum of `traffic.c`. -/
inductive St where
  | Intersection1
  | Intersection2
  | Wait20s
  | Wait30s
deriving DecidableEq, Repr

/-- The whole mutable state of the program: the three shift-register bytes
(`buf0 = shiftreg_buffer[U3]`, `buf1 = [U2]`, `buf2 = [U1]`), the global
flags of `595_shiftreg.c` and `traffic_functions.c`, the `State`/`NextState`
pair and the two per-case `static uint8_t stage` variables of `Traffic`,
the `static` stage and latched mask variables of `go_intersection` and
`stop_intersection`, the `static bool toggle` of `toggle_pedestrian`,
and the four hardware timers (running flag + counter). -/
structure Sys where
  buf0 : Nat
  buf1 : Nat
  buf2 : Nat
  c1g : Bool      -- crosswalk1_green
  c1r : Bool      -- crosswalk1_red
  c2g : Bool      -- crosswalk2_green
  c2r : Bool      -- crosswalk2_red
  pl1 : Bool      -- PL1_SW_HIT
  pl2 : Bool      -- PL2_SW_HIT
  i1g : Bool      -- intersection1_green
  i1r : Bool      -- intersection1_red
  i2g : Bool      -- intersection2_green
  i2r : Bool      -- intersection2_red
  car1 : Bool
  car2 : Bool
  car3 : Bool
  car4 : Bool
  state : St
  nextState : St
  stage1 : Nat    -- static stage of case Intersection1
  stage2 : Nat    -- static stage of case Intersection2
  goStage : Bool  -- static stage of go_intersection
  goGreens : Nat
  goYellows : Nat
  goReds : Nat
  stStage : Bool  -- static stage of stop_intersection
  stGreens : Nat
  stYellows : Nat
  stReds : Nat
  tpToggle : Bool -- static toggle of toggle_pedestrian
  tim3run : Bool
  tim3cnt : Nat
  tim4run : Bool
  tim4cnt : Nat
  tim5run : Bool
  tim5cnt : Nat
  tim15run : Bool
  tim15cnt : Nat
deriving DecidableEq, Repr

/-! ### Shift-register buffer operations (`595_shiftreg.c`) -/

/-- Bitwise complement of a `uint32_t` mask. -/
def not32 (pins : Nat) : Nat := (2 ^ 32 - 1) ^^^ pins

/-- `update_shiftreg_buffer`: split a 24-bit value into the three bytes. -/
def update_shiftreg_buffer (s : Sys) (value : Nat) : Sys :=
  { s with buf2 := (value &&& 0xFF0000) >>> 16
         , buf1 := (value &&& 0x00FF00) >>> 8
         , buf0 := value &&& 0x0000FF }

/-- The 24-bit word reassembled from the buffer bytes, as read back by
`set_pin`/`clear_pin`. -/
def regbits (s : Sys) : Nat := (s.buf2 <<< 16) ||| (s.buf1 <<< 8) ||| s.buf0

def set_pin (s : Sys) (pins : Nat) : Sys :=
  update_shiftreg_buffer s (regbits s ||| pins)

def clear_pin (s : Sys) (pins : Nat) : Sys :=
  update_shiftreg_buffer s (regbits s &&& not32 pins)

/-- `toggle_pedestrian`.  The `static uint32_t pin` is assigned before every
use, so it is modelled as a local; the `static bool toggle` persists. -/
def toggle_pedestrian (s : Sys) (crosswalk : Nat) : Sys :=
  let pin := if crosswalk = 1 then PL1_Blue else PL2_Blue
  let s1 := if s.tpToggle then clear_pin s pin else set_pin s pin
  { s1 with tpToggle := !s1.tpToggle }

/-- `go_pedestrian`.  The `static` pin variables are assigned before every
use on the valid paths and unread on the invalid path, so they are modelled
as locals.  `HAL_TIM_Base_Start_IT(&htim5)` sets the TIM5 running flag. -/
def go_pedestrian (s : Sys) (crosswalk : Nat) : Sys :=
  if crosswalk = 1 then
    let s1 := { s with c1g := true, c1r := false }
    let s2 := set_pin (clear_pin s1 PL1_Red) PL1_Green
    if s2.pl1 || s2.pl2 then { s2 with tim5run := true } else s2
  else if crosswalk = 2 then
    let s1 := { s with c2g := true, c2r := false }
    let s2 := set_pin (clear_pin s1 PL2_Red) PL2_Green
    if s2.pl1 || s2.pl2 then { s2 with tim5run := true } else s2
  else s

/-- `stop_pedestrian`. -/
def stop_pedestrian (s : Sys) (crosswalk : Nat) : Sys :=
  if crosswalk = 1 then
    let s1 := { s with c1g := false, c1r := true }
    set_pin (clear_pin s1 PL1_Green) PL1_Red
  else if crosswalk = 2 then
    let s1 := { s with c2g := false, c2r := true }
    set_pin (clear_pin s1 PL2_Green) PL2_Red
  else s

/-- `go_intersection`: the staged red→yellow→green transition.  Stage 0
latches the masks (or returns on an invalid id), waits for `TIMER_2s` on
TIM4, then swaps red for yellow and restarts TIM4.  Stage 1 waits for
`orange_Delay`, then swaps yellow for green; it stops and zeroes TIM4 and
does not restart it. -/
def go_intersection (s : Sys) (i : Nat) : Sys :=
  if s.goStage = false then
    if i = 1 ∨ i = 2 then
      let g := if i = 1 then TL1_Green ||| TL3_Green else TL2_Green ||| TL4_Green
      let y := if i = 1 then TL1_Yellow ||| TL3_Yellow else TL2_Yellow ||| TL4_Yellow
      let r := if i = 1 then TL1_Red ||| TL3_Red else TL2_Red ||| TL4_Red
      let s0 := { s with goGreens := g, goYellows := y, goReds := r }
      if TIMER_2s ≤ s0.tim4cnt then
        let s1 := { s0 with tim4run := false, tim4cnt := 0 }
        let s2 := set_pin (clear_pin s1 s1.goReds) s1.goYellows
        let s3 := { s2 with tim4run := true }
        let s4 := if i = 1 then { s3 with i1r := false } else { s3 with i2r := false }
        { s4 with goStage := true }
      else s0
    else s
  else
    if orange_Delay ≤ s.tim4cnt then
      let s1 := { s with tim4run := false, tim4cnt := 0 }
      let s2 := set_pin (clear_pin s1 s1.goYellows) s1.goGreens
      let s3 := if i = 1 then { s2 with i1g := true } else { s2 with i2g := true }
      { s3 with goStage := false }
    else s

/-- `stop_intersection`: the staged green→yellow→red transition.  Unlike
`go_intersection`, its final stage restarts TIM4 after zeroing it. -/
def stop_intersection (s : Sys) (i : Nat) : Sys :=
  if s.stStage = false then
    if i = 1 ∨ i = 2 then
      let g := if i = 1 then TL1_Green ||| TL3_Green else TL2_Green ||| TL4_Green
      let y := if i = 1 then TL1_Yellow ||| TL3_Yellow else TL2_Yellow ||| TL4_Yellow
      let r := if i = 1 then TL1_Red ||| TL3_Red else TL2_Red ||| TL4_Red
      let s0 := { s with stGreens := g, stYellows := y, stReds := r }
      if TIMER_2s ≤ s0.tim4cnt then
        let s1 := { s0 with tim4run := false, tim4cnt := 0 }
        let s2 := set_pin (clear_pin s1 s1.stGreens) s1.stYellows
        let s3 := { s2 with tim4run := true }
        let s4 := if i = 1 then { s3 with i1g := false } else { s3 with i2g := false }
        { s4 with stStage := true }
      else s0
    else s
  else
    if orange_Delay ≤ s.tim4cnt then
      let s1 := { s with tim4run := false, tim4cnt := 0 }
      let s2 := set_pin (clear_pin s1 s1.stYellows) s1.stReds
      let s3 := { s2 with tim4run := true }
      let s4 := if i = 1 then { s3 with i1r := true } else { s3 with i2r := true }
      { s4 with stStage := false }
    else s

/-! ### Helper predicates (`traffic_functions.c`) -/

def no_active_cars (s : Sys) : Bool :=
  !s.car1 && !s.car2 && !s.car3 && !s.car4

/-- The body of `active_cars_at` before the conversion of the returned
value to the declared `bool` type: the valid branches return the computed
`status` (0 or 1) and the fall-off branch returns `-1`. -/
def active_cars_at_val (s : Sys) (i : Nat) : Int :=
  if i = 1 then (if s.car1 || s.car3 then 1 else 0)
  else if i = 2 then (if s.car2 || s.car4 then 1 else 0)
  else -1

/-- `active_cars_at` as observed by callers: the returned `int` value
converted to C `_Bool` (nonzero becomes `true`). -/
def active_cars_at (s : Sys) (i : Nat) : Bool :=
  active_cars_at_val s i ≠ 0

/-! ### Interrupt service routines (`clock.c`) -/

/-- `HAL_GPIO_EXTI_Callback`, `case PL1_Switch_Pin`: on a rising edge of
pedestrian button 1, latch the request and start the TIM3 blink timer
(with interrupts) and the TIM4 transition timer, but only if no request is
latched and crosswalk 1 is red. -/
def extiPL1 (s : Sys) : Sys :=
  if !s.pl1 && s.c1r then
    { s with pl1 := true, tim3run := true, tim4run := true }
  else s

/-- `HAL_GPIO_EXTI_Callback`, `case PL2_Switch_Pin`. -/
def extiPL2 (s : Sys) : Sys :=
  if !s.pl2 && s.c2r then
    { s with pl2 := true, tim3run := true, tim4run := true }
  else s

/-- `HAL_TIM_PeriodElapsedCallback`, TIM3 branch: blink the blue waiting
indicator while the request is pending and the crosswalk red; once the
crosswalk is green, clear the blue light and the pending flag and stop and
reset TIM3. -/
def tim3Callback (s : Sys) : Sys :=
  if s.pl1 && s.c1r then toggle_pedestrian s 1
  else if s.pl2 && s.c2r then toggle_pedestrian s 2
  else if s.pl1 && s.c1g then
    { clear_pin s PL1_Blue with pl1 := false, tim3cnt := 0, tim3run := false }
  else if s.pl2 && s.c2g then
    { clear_pin s PL2_Blue with pl2 := false, tim3cnt := 0, tim3run := false }
  else s

/-- `HAL_TIM_PeriodElapsedCallback`, TIM5 branch: at walk-timer expiry,
force a crosswalk back to red only when its bound intersection is
concurrently green; otherwise do nothing. -/
def tim5Callback (s : Sys) : Sys :=
  if s.c1g && s.i1g then
    { stop_pedestrian s 1 with tim5run := false, tim5cnt := 0 }
  else if s.c2g && s.i2g then
    { stop_pedestrian s 2 with tim5run := false, tim5cnt := 0 }
  else s

/-! ### One iteration of the `Traffic` polling loop (`traffic.c`)

Each `case` of the C `switch` is a separate function.  `case Intersection1`
and `case Intersection2` do not end in `break`, so control falls through:
from `Intersection1` into `Intersection2` when its stage-1 guard
`stage == 1 && crosswalk1_red` fails with `stage` neither 0 nor 2, and
likewise from `Intersection2` into `Wait20s`. -/

/-- `case Wait20s` of `Traffic`. -/
def caseWait20 (s : Sys) : Sys :=
  if s.pl1 && s.i1g then
    { s with tim15run := false, tim15cnt := 0, nextState := .Intersection2 }
  else if s.pl2 && s.i2g then
    { s with tim15run := false, tim15cnt := 0, nextState := .Intersection1 }
  else if red_delay_Max ≤ s.tim15cnt then
    let s1 := { s with tim15run := false, tim15cnt := 0 }
    if s1.i1g then { s1 with nextState := .Intersection2, tim4run := true }
    else if s1.i2g then { s1 with nextState := .Intersection1, tim4run := true }
    else s1
  else { s with nextState := .Wait20s }

/-- The part of `case Wait30s` after the car-activity pre-check. -/
def caseWait30rest (s : Sys) : Sys :=
  if s.pl1 && s.i1g then
    { s with tim15run := false, tim15cnt := 0, nextState := .Intersection2 }
  else if s.pl2 && s.i2g then
    { s with tim15run := false, tim15cnt := 0, nextState := .Intersection1 }
  else if green_Delay ≤ s.tim15cnt then
    let s1 := { s with tim15run := false, tim15cnt := 0 }
    if s1.i1g then { s1 with nextState := .Intersection2, tim4run := true }
    else if s1.i2g then { s1 with nextState := .Intersection1, tim4run := true }
    else s1
  else { s with nextState := .Wait30s }

/-- `case Wait30s` of `Traffic`: if a car became active, stop the hold
timer and return to whichever intersection is green (when neither is
green the code continues into the pedestrian/threshold checks). -/
def caseWait30 (s : Sys) : Sys :=
  if !(no_active_cars s) then
    let s1 := { s with tim15run := false, tim15cnt := 0 }
    if s1.i1g then { s1 with nextState := .Intersection1 }
    else if s1.i2g then { s1 with nextState := .Intersection2 }
    else caseWait30rest s1
  else caseWait30rest s

/-- Sub-stage 2 of `case Intersection2` (steady state of intersection 2). -/
def caseI2stage2 (s : Sys) : Sys :=
  if s.pl2 then { s with nextState := .Intersection1, stage2 := 0 }
  else if no_active_cars s then
    { s with nextState := .Wait30s, stage2 := 0, tim15run := true }
  else if active_cars_at s 2 then
    if active_cars_at s 1 then
      { s with nextState := .Wait20s, stage2 := 0, tim15run := true }
    else { s with stage2 := 2 }
  else if !(active_cars_at s 2) && active_cars_at s 1 then
    { s with nextState := .Intersection1, stage2 := 0, tim4run := true }
  else { s with nextState := .Intersection2, stage2 := 2 }

/-- The part of `case Intersection2` after the sub-stage-0 block: the
stage-1 guard, the stage-2 block, or the C fall-through into
`case Wait20s`. -/
def caseI2after0 (s : Sys) : Sys :=
  if s.stage2 = 1 ∧ s.c2r = true then
    if !s.i2g then go_intersection s 2
    else { s with tim4run := false, tim4cnt := 0, stage2 := 2 }
  else if s.stage2 = 2 then caseI2stage2 s
  else caseWait20 s

/-- `case Intersection2` of `Traffic`. -/
def caseI2 (s : Sys) : Sys :=
  if s.stage2 = 0 then
    if s.i2g then { s with stage2 := 1 }
    else
      let s1 := if !s.i1r then stop_intersection s 1 else s
      if s1.i1r = true ∧ pedestrian_Delay ≤ s1.tim4cnt then
        let s2 := { s1 with tim4run := false, tim4cnt := 0 }
        let s3 := go_pedestrian (stop_pedestrian s2 2) 1
        caseI2after0 { s3 with tim4run := true, stage2 := 1 }
      else s1
  else caseI2after0 s

/-- Sub-stage 2 of `case Intersection1` (steady state of intersection 1). -/
def caseI1stage2 (s : Sys) : Sys :=
  if s.pl1 then { s with nextState := .Intersection2, stage1 := 0 }
  else if no_active_cars s then
    { s with nextState := .Wait30s, stage1 := 0, tim15run := true }
  else if active_cars_at s 1 then
    if active_cars_at s 2 then
      { s with nextState := .Wait20s, stage1 := 0, tim15run := true }
    else { s with stage1 := 2 }
  else if !(active_cars_at s 1) && active_cars_at s 2 then
    { s with nextState := .Intersection2, stage1 := 0, tim4run := true }
  else { s with nextState := .Intersection1, stage1 := 2 }

/-- The part of `case Intersection1` after the sub-stage-0 block: the
stage-1 guard, the stage-2 block, or the C fall-through into
`case Intersection2`. -/
def caseI1after0 (s : Sys) : Sys :=
  if s.stage1 = 1 ∧ s.c1r = true then
    if !s.i1g then go_intersection s 1
    else { s with tim4run := false, tim4cnt := 0, stage1 := 2 }
  else if s.stage1 = 2 then caseI1stage2 s
  else caseI2 s

/-- `case Intersection1` of `Traffic`. -/
def caseI1 (s : Sys) : Sys :=
  if s.stage1 = 0 then
    if s.i1g then { s with stage1 := 1 }
    else
      let s1 := if !s.i2r then stop_intersection s 2 else s
      if s1.i2r = true ∧ pedestrian_Delay ≤ s1.tim4cnt then
        let s2 := { s1 with tim4run := false, tim4cnt := 0 }
        let s3 := go_pedestrian (stop_pedestrian s2 1) 2
        caseI1after0 { s3 with tim4run := true, stage1 := 1 }
      else s1
  else caseI1after0 s

/-- One iteration of the `while (1)` loop of `Traffic`: first
`State = NextState`, then the `switch` on `State`. -/
def loopIter (s : Sys) : Sys :=
  let s0 := { s with state := s.nextState }
  match s0.state with
  | .Intersection1 => caseI1 s0
  | .Intersection2 => caseI2 s0
  | .Wait20s => caseWait20 s0
  | .Wait30s => caseWait30 s0

/-! ### The initial state -/

/-- The state after reset and `init_program()` plus the two assignments at
the top of `Traffic`: the global-variable initialisers of
`595_shiftreg.c`/`traffic_functions.c`, the buffer loaded with
`init_state`, all timers stopped at zero, `State = NextState =
Intersection2`. -/
def initSys : Sys :=
  update_shiftreg_buffer
    { buf0 := 0, buf1 := 0, buf2 := 0
    , c1g := true, c1r := false, c2g := false, c2r := true
    , pl1 := false, pl2 := false
    , i1g := false, i1r := true, i2g := true, i2r := false
    , car1 := false, car2 := false, car3 := false, car4 := false
    , state := .Intersection2, nextState := .Intersection2
    , stage1 := 0, stage2 := 0
    , goStage := false, goGreens := 0, goYellows := 0, goReds := 0
    , stStage := false, stGreens := 0, stYellows := 0, stReds := 0
    , tpToggle := false
    , tim3run := false, tim3cnt := 0
    , tim4run := false, tim4cnt := 0
    , tim5run := false, tim5cnt := 0
    , tim15run := false, tim15cnt := 0 }
    init_state

/-! ### The transition system -/

/-- One atomic step of the system: a polling-loop iteration, a button or
car-sensor edge interrupt, a TIM3 or TIM5 period-elapsed interrupt (only
possible while the timer runs), or an environment tick moving a running
timer's counter (over-approximated as an arbitrary new value). -/
inductive Step : Sys → Sys → Prop where
  | loop (s : Sys) : Step s (loopIter s)
  | button1 (s : Sys) : Step s (extiPL1 s)
  | button2 (s : Sys) : Step s (extiPL2 s)
  | carEdge1 (s : Sys) (b : Bool) : Step s { s with car1 := b }
  | carEdge2 (s : Sys) (b : Bool) : Step s { s with car2 := b }
  | carEdge3 (s : Sys) (b : Bool) : Step s { s with car3 := b }
  | carEdge4 (s : Sys) (b : Bool) : Step s { s with car4 := b }
  | timer3 (s : Sys) : s.tim3run = true → Step s (tim3Callback s)
  | timer5 (s : Sys) : s.tim5run = true → Step s (tim5Callback s)
  | tick3 (s : Sys) (n : Nat) : s.tim3run = true → Step s { s with tim3cnt := n }
  | tick4 (s : Sys) (n : Nat) : s.tim4run = true → Step s { s with tim4cnt := n }
  | tick5 (s : Sys) (n : Nat) : s.tim5run = true → Step s { s with tim5cnt := n }
  | tick15 (s : Sys) (n : Nat) : s.tim15run = true → Step s { s with tim15cnt := n }

/-- A state is reachable when some finite sequence of steps leads to it
from the reset state. -/
def Reachable (s : Sys) : Prop := Relation.ReflTransGen Step initSys s

/-! ### Indexed views of the two symmetric intersections -/

/-- The `states` value whose case handles intersection `k`. -/
def interState (k : Nat) : St := if k = 1 then .Intersection1 else .Intersection2

/-- The other intersection's identifier. -/
def otherK (k : Nat) : Nat := 3 - k

/-- The pending-request flag `PLk_SW_HIT` of intersection `k`'s crosswalk. -/
def ownPL (s : Sys) (k : Nat) : Bool := if k = 1 then s.pl1 else s.pl2

/-- The `static` stage variable of `case Intersectionk`. -/
def stageOf (s : Sys) (k : Nat) : Nat := if k = 1 then s.stage1 else s.stage2

/-- The `intersectionk_green` flag. -/
def greenOf (s : Sys) (k : Nat) : Bool := if k = 1 then s.i1g else s.i2g

/-! ### The inductive invariant for the safety claims

`Inv` strengthens the two claimed invariants (mutual exclusion of the
intersection green flags, and crosswalk-green implies bound intersection
fully red) with the bookkeeping facts that make them inductive: the
crosswalk red/green flags are always written in complementary pairs; a red
vehicle flag excludes the green one; while a `Traffic` case sits in its
sub-stage 1 the matching crosswalk is red, the loop stays in that case and
the opposite green flag is down (this also rules out the C fall-through
paths); and a half-done `stop_intersection`/`go_intersection` sequence
pins down which case owns it and what it has already cleared. -/
def Inv (s : Sys) : Prop :=
  (s.i1g = true → s.i2g = false)
  ∧ (s.c1g = true → s.i1r = true ∧ s.i1g = false)
  ∧ (s.c2g = true → s.i2r = true ∧ s.i2g = false)
  ∧ (s.c1r = !s.c1g)
  ∧ (s.c2r = !s.c2g)
  ∧ (s.i1r = true → s.i1g = false)
  ∧ (s.i2r = true → s.i2g = false)
  ∧ (s.stage1 = 1 → s.c1r = true ∧ s.nextState = .Intersection1 ∧ s.i2g = false)
  ∧ (s.stage2 = 1 → s.c2r = true ∧ s.nextState = .Intersection2 ∧ s.i1g = false)
  ∧ (s.stStage = true → s.i1g = false ∧ s.i2g = false ∧
       ((s.nextState = .Intersection1 ∧ s.stage1 = 0 ∧ s.i2r = false) ∨
        (s.nextState = .Intersection2 ∧ s.stage2 = 0 ∧ s.i1r = false)))
  ∧ (s.goStage = true →
       ((s.stage1 = 1 ∧ s.nextState = .Intersection1 ∧ s.i1r = false ∧ s.i1g = false) ∨
        (s.stage2 = 1 ∧ s.nextState = .Intersection2 ∧ s.i2r = false ∧ s.i2g = false)))
  ∧ s.stage1 ≤ 2 ∧ s.stage2 ≤ 2

/-! ### A concrete run: pedestrian 2 requests a crossing while
intersection 2 is green

The walk trace below follows the legal steps of `Step`: two loop
iterations settle `case Intersection2` into its steady state, the button
edge latches the request and starts TIM3/TIM4, the loop hands off to
`Intersection1`, `stop_intersection(2)` runs its two stages as TIM4
passes the thresholds, the pedestrian switch turns crosswalk 2 green and
arms the walk timer TIM5, and finally TIM5's counter reaches its 15 s
auto-reload value of 29999 ticks with intersection 2 still red. -/

def walkT1 : Sys := loopIter initSys
def walkT2 : Sys := loopIter walkT1
def walkT3 : Sys := extiPL2 walkT2
def walkT4 : Sys := loopIter walkT3
def walkT5 : Sys := loopIter walkT4
def walkT6 : Sys := { walkT5 with tim4cnt := TIMER_2s }
def walkT7 : Sys := loopIter walkT6
def walkT8 : Sys := { walkT7 with tim4cnt := orange_Delay }
def walkT9 : Sys := loopIter walkT8
def walkT10 : Sys := { walkT9 with tim4cnt := pedestrian_Delay }
def walkT11 : Sys := loopIter walkT10
def walkT12 : Sys := { walkT11 with tim5cnt := 29999 }

/-- A state of a finished first `go_intersection` stage: the yellow phase
of intersection 1 with TIM4 at the amber threshold, about to complete. -/
def goAmber : Sys :=
  { initSys with
      goStage := true
    , goGreens := TL1_Green ||| TL3_Green
    , goYellows := TL1_Yellow ||| TL3_Yellow
    , goReds := TL1_Red ||| TL3_Red
    , i1r := false
    , tim4run := true
    , tim4cnt := orange_Delay }

/-- The matching state for `stop_intersection`: the yellow phase of a
stopping intersection 1 with TIM4 at the amber threshold. -/
def stAmber : Sys :=
  { initSys with
      stStage := true
    , stGreens := TL1_Green ||| TL3_Green
    , stYellows := TL1_Yellow ||| TL3_Yellow
    , stReds := TL1_Red ||| TL3_Red
    , i1g := false
    , tim4run := true
    , tim4cnt := orange_Delay }

/-- A steady-state configuration of `case Intersection1` used to
instantiate the arbiter priority theorem: intersection 1 green in
sub-stage 2 with its own pedestrian request pending. -/
def steady1 : Sys :=
  { initSys with
      nextState := .Intersection1, state := .Intersection1
    , stage1 := 2
    , i1g := true, i1r := false, i2g := false, i2r := true
    , c1g := false, c1r := true, c2g := true, c2r := false
    , pl1 := true }

/-- A state in which both a `go_intersection` and a `stop_intersection`
sequence sit in their final (amber) stage with TIM4 at the threshold;
used to instantiate the completion-behaviour theorem. -/
def amberBoth : Sys :=
  { goAmber with
      stStage := true
    , stGreens := TL2_Green ||| TL4_Green
    , stYellows := TL2_Yellow ||| TL4_Yellow
    , stReds := TL2_Red ||| TL4_Red }

/-- Equality of every observable part of the state: the shift-register
bytes, every global flag, the controller state, the `Traffic` stages, the
sequencer stages, the blink toggle and all four timers.  Only the
latched mask copies inside `go_intersection`/`stop_intersection`
(`goGreens`/`goYellows`/`goReds`/`stGreens`/`stYellows`/`stReds`) are
exempt: they are unread until the call that sets them uses them. -/
def EqObservable (a b : Sys) : Prop :=
  a.buf0 = b.buf0 ∧ a.buf1 = b.buf1 ∧ a.buf2 = b.buf2 ∧
  a.c1g = b.c1g ∧ a.c1r = b.c1r ∧ a.c2g = b.c2g ∧ a.c2r = b.c2r ∧
  a.pl1 = b.pl1 ∧ a.pl2 = b.pl2 ∧
  a.i1g = b.i1g ∧ a.i1r = b.i1r ∧ a.i2g = b.i2g ∧ a.i2r = b.i2r ∧
  a.car1 = b.car1 ∧ a.car2 = b.car2 ∧ a.car3 = b.car3 ∧ a.car4 = b.car4 ∧
  a.state = b.state ∧ a.nextState = b.nextState ∧
  a.stage1 = b.stage1 ∧ a.stage2 = b.stage2 ∧
  a.goStage = b.goStage ∧ a.stStage = b.stStage ∧ a.tpToggle = b.tpToggle ∧
  a.tim3run = b.tim3run ∧ a.tim3cnt = b.tim3cnt ∧
  a.tim4run = b.tim4run ∧ a.tim4cnt = b.tim4cnt ∧
  a.tim5run = b.tim5run ∧ a.tim5cnt = b.tim5cnt ∧
  a.tim15run = b.tim15run ∧ a.tim15cnt = b.tim15cnt

/-- A state with crosswalk 1 green while intersection 1 is also green;
this is the configuration in which the TIM5 walk-timeout callback forces
`stop_pedestrian(1)`.  Used to instantiate the amended walk-cap theorem. -/
def forcedStop : Sys := { initSys with i1g := true, i1r := false }

/-! ## Theorems -/

/-! Projection lemmas: the buffer operations only touch the three buffer bytes. -/

@[simp] theorem update_shiftreg_buffer_c1g (s : Sys) (v : Nat) : (update_shiftreg_buffer s v).c1g = s.c1g := rfl
@[simp] theorem update_shiftreg_buffer_c1r (s : Sys) (v : Nat) : (update_shiftreg_buffer s v).c1r = s.c1r := rfl
@[simp] theorem update_shiftreg_buffer_c2g (s : Sys) (v : Nat) : (update_shiftreg_buffer s v).c2g = s.c2g := rfl
@[simp] theorem update_shiftreg_buffer_c2r (s : Sys) (v : Nat) : (update_shiftreg_buffer s v).c2r = s.c2r := rfl
@[simp] theorem update_shiftreg_buffer_pl1 (s : Sys) (v : Nat) : (update_shiftreg_buffer s v).pl1 = s.pl1 := rfl
@[simp] theorem update_shiftreg_buffer_pl2 (s : Sys) (v : Nat) : (update_shiftreg_buffer s v).pl2 = s.pl2 := rfl
@[simp] theorem update_shiftreg_buffer_i1g (s : Sys) (v : Nat) : (update_shiftreg_buffer s v).i1g = s.i1g := rfl
@[simp] theorem update_shiftreg_buffer_i1r (s : Sys) (v : Nat) : (update_shiftreg_buffer s v).i1r = s.i1r := rfl
@[simp] theorem update_shiftreg_buffer_i2g (s : Sys) (v : Nat) : (update_shiftreg_buffer s v).i2g = s.i2g := rfl
@[simp] theorem update_shiftreg_buffer_i2r (s : Sys) (v : Nat) : (update_shiftreg_buffer s v).i2r = s.i2r := rfl
@[simp] theorem update_shiftreg_buffer_car1 (s : Sys) (v : Nat) : (update_shiftreg_buffer s v).car1 = s.car1 := rfl
@[simp] theorem update_shiftreg_buffer_car2 (s : Sys) (v : Nat) : (update_shiftreg_buffer s v).car2 = s.car2 := rfl
@[simp] theorem update_shiftreg_buffer_car3 (s : Sys) (v : Nat) : (update_shiftreg_buffer s v).car3 = s.car3 := rfl
@[simp] theorem update_shiftreg_buffer_car4 (s : Sys) (v : Nat) : (update_shiftreg_buffer s v).car4 = s.car4 := rfl
@[simp] theorem update_shiftreg_buffer_state (s : Sys) (v : Nat) : (update_shiftreg_buffer s v).state = s.state := rfl
@[simp] theorem update_shiftreg_buffer_nextState (s : Sys) (v : Nat) : (update_shiftreg_buffer s v).nextState = s.nextState := rfl
@[simp] theorem update_shiftreg_buffer_stage1 (s : Sys) (v : Nat) : (update_shiftreg_buffer s v).stage1 = s.stage1 := rfl
@[simp] theorem update_shiftreg_buffer_stage2 (s : Sys) (v : Nat) : (update_shiftreg_buffer s v).stage2 = s.stage2 := rfl
@[simp] theorem update_shiftreg_buffer_goStage (s : Sys) (v : Nat) : (update_shiftreg_buffer s v).goStage = s.goStage := rfl
@[simp] theorem update_shiftreg_buffer_goGreens (s : Sys) (v : Nat) : (update_shiftreg_buffer s v).goGreens = s.goGreens := rfl
@[simp] theorem update_shiftreg_buffer_goYellows (s : Sys) (v : Nat) : (update_shiftreg_buffer s v).goYellows = s.goYellows := rfl
@[simp] theorem update_shiftreg_buffer_goReds (s : Sys) (v : Nat) : (update_shiftreg_buffer s v).goReds = s.goReds := rfl
@[simp] theorem update_shiftreg_buffer_stStage (s : Sys) (v : Nat) : (update_shiftreg_buffer s v).stStage = s.stStage := rfl
@[simp] theorem update_shiftreg_buffer_stGreens (s : Sys) (v : Nat) : (update_shiftreg_buffer s v).stGreens = s.stGreens := rfl
@[simp] theorem update_shiftreg_buffer_stYellows (s : Sys) (v : Nat) : (update_shiftreg_buffer s v).stYellows = s.stYellows := rfl
@[simp] theorem update_shiftreg_buffer_stReds (s : Sys) (v : Nat) : (update_shiftreg_buffer s v).stReds = s.stReds := rfl
@[simp] theorem update_shiftreg_buffer_tpToggle (s : Sys) (v : Nat) : (update_shiftreg_buffer s v).tpToggle = s.tpToggle := rfl
@[simp] theorem update_shiftreg_buffer_tim3run (s : Sys) (v : Nat) : (update_shiftreg_buffer s v).tim3run = s.tim3run := rfl
@[simp] theorem update_shiftreg_buffer_tim3cnt (s : Sys) (v : Nat) : (update_shiftreg_buffer s v).tim3cnt = s.tim3cnt := rfl
@[simp] theorem update_shiftreg_buffer_tim4run (s : Sys) (v : Nat) : (update_shiftreg_buffer s v).tim4run = s.tim4run := rfl
@[simp] theorem update_shiftreg_buffer_tim4cnt (s : Sys) (v : Nat) : (update_shiftreg_buffer s v).tim4cnt = s.tim4cnt := rfl
@[simp] theorem update_shiftreg_buffer_tim5run (s : Sys) (v : Nat) : (update_shiftreg_buffer s v).tim5run = s.tim5run := rfl
@[simp] theorem update_shiftreg_buffer_tim5cnt (s : Sys) (v : Nat) : (update_shiftreg_buffer s v).tim5cnt = s.tim5cnt := rfl
@[simp] theorem update_shiftreg_buffer_tim15run (s : Sys) (v : Nat) : (update_shiftreg_buffer s v).tim15run = s.tim15run := rfl
@[simp] theorem update_shiftreg_buffer_tim15cnt (s : Sys) (v : Nat) : (update_shiftreg_buffer s v).tim15cnt = s.tim15cnt := rfl

@[simp] theorem set_pin_c1g (s : Sys) (p : Nat) : (set_pin s p).c1g = s.c1g := rfl
@[simp] theorem set_pin_c1r (s : Sys) (p : Nat) : (set_pin s p).c1r = s.c1r := rfl
@[simp] theorem set_pin_c2g (s : Sys) (p : Nat) : (set_pin s p).c2g = s.c2g := rfl
@[simp] theorem set_pin_c2r (s : Sys) (p : Nat) : (set_pin s p).c2r = s.c2r := rfl
@[simp] theorem set_pin_pl1 (s : Sys) (p : Nat) : (set_pin s p).pl1 = s.pl1 := rfl
@[simp] theorem set_pin_pl2 (s : Sys) (p : Nat) : (set_pin s p).pl2 = s.pl2 := rfl
@[simp] theorem set_pin_i1g (s : Sys) (p : Nat) : (set_pin s p).i1g = s.i1g := rfl
@[simp] theorem set_pin_i1r (s : Sys) (p : Nat) : (set_pin s p).i1r = s.i1r := rfl
@[simp] theorem set_pin_i2g (s : Sys) (p : Nat) : (set_pin s p).i2g = s.i2g := rfl
@[simp] theorem set_pin_i2r (s : Sys) (p : Nat) : (set_pin s p).i2r = s.i2r := rfl
@[simp] theorem set_pin_car1 (s : Sys) (p : Nat) : (set_pin s p).car1 = s.car1 := rfl
@[simp] theorem set_pin_car2 (s : Sys) (p : Nat) : (set_pin s p).car2 = s.car2 := rfl
@[simp] theorem set_pin_car3 (s : Sys) (p : Nat) : (set_pin s p).car3 = s.car3 := rfl
@[simp] theorem set_pin_car4 (s : Sys) (p : Nat) : (set_pin s p).car4 = s.car4 := rfl
@[simp] theorem set_pin_state (s : Sys) (p : Nat) : (set_pin s p).state = s.state := rfl
@[simp] theorem set_pin_nextState (s : Sys) (p : Nat) : (set_pin s p).nextState = s.nextState := rfl
@[simp] theorem set_pin_stage1 (s : Sys) (p : Nat) : (set_pin s p).stage1 = s.stage1 := rfl
@[simp] theorem set_pin_stage2 (s : Sys) (p : Nat) : (set_pin s p).stage2 = s.stage2 := rfl
@[simp] theorem set_pin_goStage (s : Sys) (p : Nat) : (set_pin s p).goStage = s.goStage := rfl
@[simp] theorem set_pin_goGreens (s : Sys) (p : Nat) : (set_pin s p).goGreens = s.goGreens := rfl
@[simp] theorem set_pin_goYellows (s : Sys) (p : Nat) : (set_pin s p).goYellows = s.goYellows := rfl
@[simp] theorem set_pin_goReds (s : Sys) (p : Nat) : (set_pin s p).goReds = s.goReds := rfl
@[simp] theorem set_pin_stStage (s : Sys) (p : Nat) : (set_pin s p).stStage = s.stStage := rfl
@[simp] theorem set_pin_stGreens (s : Sys) (p : Nat) : (set_pin s p).stGreens = s.stGreens := rfl
@[simp] theorem set_pin_stYellows (s : Sys) (p : Nat) : (set_pin s p).stYellows = s.stYellows := rfl
@[simp] theorem set_pin_stReds (s : Sys) (p : Nat) : (set_pin s p).stReds = s.stReds := rfl
@[simp] theorem set_pin_tpToggle (s : Sys) (p : Nat) : (set_pin s p).tpToggle = s.tpToggle := rfl
@[simp] theorem set_pin_tim3run (s : Sys) (p : Nat) : (set_pin s p).tim3run = s.tim3run := rfl
@[simp] theorem set_pin_tim3cnt (s : Sys) (p : Nat) : (set_pin s p).tim3cnt = s.tim3cnt := rfl
@[simp] theorem set_pin_tim4run (s : Sys) (p : Nat) : (set_pin s p).tim4run = s.tim4run := rfl
@[simp] theorem set_pin_tim4cnt (s : Sys) (p : Nat) : (set_pin s p).tim4cnt = s.tim4cnt := rfl
@[simp] theorem set_pin_tim5run (s : Sys) (p : Nat) : (set_pin s p).tim5run = s.tim5run := rfl
@[simp] theorem set_pin_tim5cnt (s : Sys) (p : Nat) : (set_pin s p).tim5cnt = s.tim5cnt := rfl
@[simp] theorem set_pin_tim15run (s : Sys) (p : Nat) : (set_pin s p).tim15run = s.tim15run := rfl
@[simp] theorem set_pin_tim15cnt (s : Sys) (p : Nat) : (set_pin s p).tim15cnt = s.tim15cnt := rfl

@[simp] theorem clear_pin_c1g (s : Sys) (p : Nat) : (clear_pin s p).c1g = s.c1g := rfl
@[simp] theorem clear_pin_c1r (s : Sys) (p : Nat) : (clear_pin s p).c1r = s.c1r := rfl
@[simp] theorem clear_pin_c2g (s : Sys) (p : Nat) : (clear_pin s p).c2g = s.c2g := rfl
@[simp] theorem clear_pin_c2r (s : Sys) (p : Nat) : (clear_pin s p).c2r = s.c2r := rfl
@[simp] theorem clear_pin_pl1 (s : Sys) (p : Nat) : (clear_pin s p).pl1 = s.pl1 := rfl
@[simp] theorem clear_pin_pl2 (s : Sys) (p : Nat) : (clear_pin s p).pl2 = s.pl2 := rfl
@[simp] theorem clear_pin_i1g (s : Sys) (p : Nat) : (clear_pin s p).i1g = s.i1g := rfl
@[simp] theorem clear_pin_i1r (s : Sys) (p : Nat) : (clear_pin s p).i1r = s.i1r := rfl
@[simp] theorem clear_pin_i2g (s : Sys) (p : Nat) : (clear_pin s p).i2g = s.i2g := rfl
@[simp] theorem clear_pin_i2r (s : Sys) (p : Nat) : (clear_pin s p).i2r = s.i2r := rfl
@[simp] theorem clear_pin_car1 (s : Sys) (p : Nat) : (clear_pin s p).car1 = s.car1 := rfl
@[simp] theorem clear_pin_car2 (s : Sys) (p : Nat) : (clear_pin s p).car2 = s.car2 := rfl
@[simp] theorem clear_pin_car3 (s : Sys) (p : Nat) : (clear_pin s p).car3 = s.car3 := rfl
@[simp] theorem clear_pin_car4 (s : Sys) (p : Nat) : (clear_pin s p).car4 = s.car4 := rfl
@[simp] theorem clear_pin_state (s : Sys) (p : Nat) : (clear_pin s p).state = s.state := rfl
@[simp] theorem clear_pin_nextState (s : Sys) (p : Nat) : (clear_pin s p).nextState = s.nextState := rfl
@[simp] theorem clear_pin_stage1 (s : Sys) (p : Nat) : (clear_pin s p).stage1 = s.stage1 := rfl
@[simp] theorem clear_pin_stage2 (s : Sys) (p : Nat) : (clear_pin s p).stage2 = s.stage2 := rfl
@[simp] theorem clear_pin_goStage (s : Sys) (p : Nat) : (clear_pin s p).goStage = s.goStage := rfl
@[simp] theorem clear_pin_goGreens (s : Sys) (p : Nat) : (clear_pin s p).goGreens = s.goGreens := rfl
@[simp] theorem clear_pin_goYellows (s : Sys) (p : Nat) : (clear_pin s p).goYellows = s.goYellows := rfl
@[simp] theorem clear_pin_goReds (s : Sys) (p : Nat) : (clear_pin s p).goReds = s.goReds := rfl
@[simp] theorem clear_pin_stStage (s : Sys) (p : Nat) : (clear_pin s p).stStage = s.stStage := rfl
@[simp] theorem clear_pin_stGreens (s : Sys) (p : Nat) : (clear_pin s p).stGreens = s.stGreens := rfl
@[simp] theorem clear_pin_stYellows (s : Sys) (p : Nat) : (clear_pin s p).stYellows = s.stYellows := rfl
@[simp] theorem clear_pin_stReds (s : Sys) (p : Nat) : (clear_pin s p).stReds = s.stReds := rfl
@[simp] theorem clear_pin_tpToggle (s : Sys) (p : Nat) : (clear_pin s p).tpToggle = s.tpToggle := rfl
@[simp] theorem clear_pin_tim3run (s : Sys) (p : Nat) : (clear_pin s p).tim3run = s.tim3run := rfl
@[simp] theorem clear_pin_tim3cnt (s : Sys) (p : Nat) : (clear_pin s p).tim3cnt = s.tim3cnt := rfl
@[simp] theorem clear_pin_tim4run (s : Sys) (p : Nat) : (clear_pin s p).tim4run = s.tim4run := rfl
@[simp] theorem clear_pin_tim4cnt (s : Sys) (p : Nat) : (clear_pin s p).tim4cnt = s.tim4cnt := rfl
@[simp] theorem clear_pin_tim5run (s : Sys) (p : Nat) : (clear_pin s p).tim5run = s.tim5run := rfl
@[simp] theorem clear_pin_tim5cnt (s : Sys) (p : Nat) : (clear_pin s p).tim5cnt = s.tim5cnt := rfl
@[simp] theorem clear_pin_tim15run (s : Sys) (p : Nat) : (clear_pin s p).tim15run = s.tim15run := rfl
@[simp] theorem clear_pin_tim15cnt (s : Sys) (p : Nat) : (clear_pin s p).tim15cnt = s.tim15cnt := rfl


/-- Claim C9 (counterexample).  The claim reads a 5 s hand-off cost into
the `Wait20s` threshold formula: had the constant baked into the
threshold been 5 s (10000 ticks at 2 kHz), the threshold would be
`(40000 - 10000) - 1 - 100`.  The actual subtracted constant
`transition_Time` is 30000 ticks (15 s), so the threshold differs from
the 5 s-hand-off reading. -/
theorem wait20_threshold_not_five_second_handoff :
    transition_Time ≠ 5 * 2000 ∧
    red_delay_Max ≠ (40000 - 5 * 2000) - 1 - 100 := by
  decide

/-- Claim C9 (amended).  Both hold thresholds subtract the same fixed
transition-time constant from a nominal total of 20 s respectively 30 s:
`red_delay_Max = (40000 - transition_Time) - 1 - 100` and
`green_Delay = (60000 - transition_Time) - 1 - 100`, where 40000 and
60000 ticks at 2 kHz are 20 s and 30 s.  The baked-in hand-off cost
`transition_Time` is 15 s (not 5 s), so the residual `Wait20s` threshold
itself is 5 s worth of ticks (minus the 1 + 100 tick margin) and the
timer fires when the total wait including the 15 s hand-off reaches
20 s (respectively 30 s). -/
theorem wait_thresholds_from_transition_time :
    red_delay_Max = (40000 - transition_Time) - 1 - 100 ∧
    green_Delay = (60000 - transition_Time) - 1 - 100 ∧
    transition_Time = 15 * 2000 ∧
    40000 = 20 * 2000 ∧
    60000 = 30 * 2000 ∧
    red_delay_Max + 1 + 100 = 5 * 2000 := by
  decide

/-- Claim C10.  For any intersection identifier outside `{1, 2}` and any
state of the car flags, `active_cars_at` falls off both valid branches
and returns `-1`; converted to the declared `bool` result this reads as
`true`, so a caller with an invalid id observes active cars. -/
theorem active_cars_at_invalid_id (s : Sys) (k : Nat) (hk : ¬(k = 1 ∨ k = 2)) :
    active_cars_at_val s k = -1 ∧ active_cars_at s k = true := by
  have h1 : k ≠ 1 := fun h => hk (Or.inl h)
  have h2 : k ≠ 2 := fun h => hk (Or.inr h)
  constructor
  · simp [active_cars_at_val, h1, h2]
  · simp [active_cars_at, active_cars_at_val, h1, h2]

/-- Witness for C10: identifier 3 in the reset state, where all four car
flags are false, still reports active cars. -/
theorem active_cars_at_invalid_id_witness :
    active_cars_at_val initSys 3 = -1 ∧ active_cars_at initSys 3 = true :=
  active_cars_at_invalid_id initSys 3 (by decide)

/-- Claim C5 (counterexample).  `toggle_pedestrian` with the invalid
identifier 3 is not a silent no-op: its ternary treats every id other
than 1 as crosswalk 2, so from the reset state it sets the `PL2_Blue`
bit in shift-register byte U2 and flips its internal toggle. -/
theorem toggle_pedestrian_invalid_id_not_noop :
    (toggle_pedestrian initSys 3).buf1 ≠ initSys.buf1 ∧
    (toggle_pedestrian initSys 3).tpToggle ≠ initSys.tpToggle := by
  decide

/-- Claim C5 (amended).  For an identifier outside `{1, 2}`,
`go_pedestrian` and `stop_pedestrian` return with no effect in every
state, and `go_intersection` and `stop_intersection` return with no
effect whenever their internal stage is 0 (their stage-1 code never
re-checks the identifier); `toggle_pedestrian` is excluded — it treats
every id other than 1 as crosswalk 2. -/
theorem invalid_id_noop (s : Sys) (k : Nat) (hk : ¬(k = 1 ∨ k = 2)) :
    go_pedestrian s k = s ∧ stop_pedestrian s k = s ∧
    (s.goStage = false → go_intersection s k = s) ∧
    (s.stStage = false → stop_intersection s k = s) := by
  have h1 : k ≠ 1 := fun h => hk (Or.inl h)
  have h2 : k ≠ 2 := fun h => hk (Or.inr h)
  refine ⟨?_, ?_, ?_, ?_⟩
  · simp [go_pedestrian, h1, h2]
  · simp [stop_pedestrian, h1, h2]
  · intro hgo; simp [go_intersection, hgo, hk]
  · intro hst; simp [stop_intersection, hst, hk]

/-- Witness for the amended C5: identifier 3 in the reset state, whose
sequencer stages are 0. -/
theorem invalid_id_noop_witness :
    go_pedestrian initSys 3 = initSys ∧ stop_pedestrian initSys 3 = initSys ∧
    go_intersection initSys 3 = initSys ∧ stop_intersection initSys 3 = initSys := by
  obtain ⟨h1, h2, h3, h4⟩ := invalid_id_noop initSys 3 (by decide)
  exact ⟨h1, h2, h3 rfl, h4 rfl⟩

/-- Claim C6 (counterexample).  `go_intersection` completing its final
stage (state `goAmber`: stage 1, TIM4 at the amber threshold) sets the
target green colour and reports completion by resetting its stage, but
leaves TIM4 stopped at zero — not running as claimed. -/
theorem go_intersection_completion_stops_timer :
    (go_intersection goAmber 1).i1g = true ∧
    (go_intersection goAmber 1).goStage = false ∧
    (go_intersection goAmber 1).tim4run = false ∧
    (go_intersection goAmber 1).tim4cnt = 0 := by
  decide

/-- Claim C6 (amended).  On completing its final stage,
`stop_intersection` leaves the transition timer TIM4 running (restarted
from zero), while `go_intersection` leaves TIM4 stopped and reset to
zero; both reset their internal stage to 0. -/
theorem transition_timer_at_completion (s : Sys) (i : Nat) :
    (s.goStage = true → orange_Delay ≤ s.tim4cnt →
      (go_intersection s i).tim4run = false ∧ (go_intersection s i).tim4cnt = 0 ∧
      (go_intersection s i).goStage = false) ∧
    (s.stStage = true → orange_Delay ≤ s.tim4cnt →
      (stop_intersection s i).tim4run = true ∧ (stop_intersection s i).tim4cnt = 0 ∧
      (stop_intersection s i).stStage = false) := by
  constructor
  · intro hgo hcnt
    simp [go_intersection, hgo, hcnt, apply_ite]
  · intro hst hcnt
    simp [stop_intersection, hst, hcnt, apply_ite]

/-- Witness for the amended C6: in `amberBoth` both sequencers sit in
their final stage at the threshold; completing them shows the
asymmetric treatment of TIM4. -/
theorem transition_timer_at_completion_witness :
    (go_intersection amberBoth 1).tim4run = false ∧
    (go_intersection amberBoth 1).tim4cnt = 0 ∧
    (go_intersection amberBoth 1).goStage = false ∧
    (stop_intersection amberBoth 1).tim4run = true ∧
    (stop_intersection amberBoth 1).tim4cnt = 0 ∧
    (stop_intersection amberBoth 1).stStage = false := by
  obtain ⟨h1, h2⟩ := transition_timer_at_completion amberBoth 1
  obtain ⟨a1, a2, a3⟩ := h1 rfl (by decide)
  obtain ⟨b1, b2, b3⟩ := h2 rfl (by decide)
  exact ⟨a1, a2, a3, b1, b2, b3⟩

/-- Claim C7.  For a valid intersection id, a call to `go_intersection`
or `stop_intersection` whose timer counter has not reached the current
stage's threshold (`TIMER_2s` in stage 0, `orange_Delay` in stage 1)
leaves every observable part of the state unchanged — no shift-register
byte, no flag, no stage, no timer — and a repeated call before expiry is
likewise observably the identity, so such calls are idempotent. -/
theorem transition_noop_before_expiry (s : Sys) (i : Nat) (hi : i = 1 ∨ i = 2) :
    (s.goStage = false → s.tim4cnt < TIMER_2s →
      EqObservable (go_intersection s i) s ∧
      EqObservable (go_intersection (go_intersection s i) i) s) ∧
    (s.goStage = true → s.tim4cnt < orange_Delay →
      go_intersection s i = s) ∧
    (s.stStage = false → s.tim4cnt < TIMER_2s →
      EqObservable (stop_intersection s i) s ∧
      EqObservable (stop_intersection (stop_intersection s i) i) s) ∧
    (s.stStage = true → s.tim4cnt < orange_Delay →
      stop_intersection s i = s) := by
  refine ⟨?_, ?_, ?_, ?_⟩
  · intro hgo hcnt
    constructor
    · simp [go_intersection, hgo, hi, Nat.not_le_of_lt hcnt, EqObservable]
    · simp [go_intersection, hgo, hi, Nat.not_le_of_lt hcnt, EqObservable]
  · intro hgo hcnt
    simp [go_intersection, hgo, hi, Nat.not_le_of_lt hcnt]
  · intro hst hcnt
    constructor
    · simp [stop_intersection, hst, hi, Nat.not_le_of_lt hcnt, EqObservable]
    · simp [stop_intersection, hst, hi, Nat.not_le_of_lt hcnt, EqObservable]
  · intro hst hcnt
    simp [stop_intersection, hst, hi, Nat.not_le_of_lt hcnt]

/-- Witness for C7: the reset state has both sequencers in stage 0 with
TIM4 at zero, below the 2 s threshold; calling the sequencers for
intersection 1 changes nothing observable. -/
theorem transition_noop_before_expiry_witness :
    EqObservable (go_intersection initSys 1) initSys ∧
    EqObservable (go_intersection (go_intersection initSys 1) 1) initSys ∧
    EqObservable (stop_intersection initSys 1) initSys ∧
    EqObservable (stop_intersection (stop_intersection initSys 1) 1) initSys := by
  obtain ⟨h1, _, h3, _⟩ := transition_noop_before_expiry initSys 1 (Or.inl rfl)
  obtain ⟨a1, a2⟩ := h1 rfl (by decide)
  obtain ⟨b1, b2⟩ := h3 rfl (by decide)
  exact ⟨a1, a2, b1, b2⟩

/-- Claim C8.  On a rising edge of a pedestrian button, the pending flag
is latched — together with starting the TIM3 blink timer and the TIM4
transition timer — exactly when the flag was not already set and the
crosswalk's red flag is up; an edge with the flag already latched, or
with the crosswalk not red (in particular green, the red and green flags
being complementary), changes nothing. -/
theorem button_edge_latching (s : Sys) :
    (s.pl1 = false → s.c1r = true →
      extiPL1 s = { s with pl1 := true, tim3run := true, tim4run := true }) ∧
    (s.pl1 = true → extiPL1 s = s) ∧
    (s.c1r = false → extiPL1 s = s) ∧
    (s.c1r = !s.c1g → s.c1g = true → extiPL1 s = s) ∧
    (s.pl2 = false → s.c2r = true →
      extiPL2 s = { s with pl2 := true, tim3run := true, tim4run := true }) ∧
    (s.pl2 = true → extiPL2 s = s) ∧
    (s.c2r = false → extiPL2 s = s) ∧
    (s.c2r = !s.c2g → s.c2g = true → extiPL2 s = s) := by
  refine ⟨?_, ?_, ?_, ?_, ?_, ?_, ?_, ?_⟩ <;> intros <;> simp_all [extiPL1, extiPL2]

/-- Witness for C8: from the reset state, where crosswalk 2 is red with
no pending request, a button-2 edge latches the request and starts both
timers; a second edge in the latched successor changes nothing, and a
button-1 edge is ignored because crosswalk 1 is green (its red flag is
down). -/
theorem button_edge_latching_witness :
    extiPL2 initSys = { initSys with pl2 := true, tim3run := true, tim4run := true } ∧
    extiPL2 { initSys with pl2 := true, tim3run := true, tim4run := true } =
      { initSys with pl2 := true, tim3run := true, tim4run := true } ∧
    extiPL1 initSys = initSys := by
  refine ⟨(button_edge_latching initSys).2.2.2.2.1 rfl rfl, ?_, ?_⟩
  · exact (button_edge_latching _).2.2.2.2.2.1 rfl
  · exact (button_edge_latching initSys).2.2.1 rfl

/-- Claim C4.  One loop iteration from steady state (sub-stage 2 of
`case IntersectionK`, intersection K green) evaluates exactly the coded
priority order: (1) K's own pending pedestrian flag sends the controller
to the other intersection; else (2) no active car anywhere sends it to
`Wait30s` and starts the hold timer TIM15; else (3) cars at K and also
at the other intersection send it to `Wait20s` and start the hold timer;
else (4) cars only at the other intersection send it to the other
intersection; otherwise (cars only at K) it stays in `IntersectionK`
with the stage still 2. -/
theorem arbiter_priority (s : Sys) (k : Nat) (hk : k = 1 ∨ k = 2)
    (hns : s.nextState = interState k) (hstage : stageOf s k = 2)
    (hg : greenOf s k = true) :
    (ownPL s k = true →
      (loopIter s).nextState = interState (otherK k) ∧ stageOf (loopIter s) k = 0) ∧
    (ownPL s k = false → no_active_cars s = true →
      (loopIter s).nextState = .Wait30s ∧ stageOf (loopIter s) k = 0 ∧
      (loopIter s).tim15run = true) ∧
    (ownPL s k = false → no_active_cars s = false →
      active_cars_at s k = true → active_cars_at s (otherK k) = true →
      (loopIter s).nextState = .Wait20s ∧ stageOf (loopIter s) k = 0 ∧
      (loopIter s).tim15run = true) ∧
    (ownPL s k = false → active_cars_at s k = false →
      active_cars_at s (otherK k) = true →
      (loopIter s).nextState = interState (otherK k) ∧ stageOf (loopIter s) k = 0 ∧
      (loopIter s).tim4run = true) ∧
    (ownPL s k = false → active_cars_at s k = true →
      active_cars_at s (otherK k) = false →
      (loopIter s).nextState = interState k ∧ stageOf (loopIter s) k = 2) := by
  rcases hk with rfl | rfl <;>
    simp only [interState, otherK, ownPL, stageOf, greenOf, if_pos, if_neg,
      reduceIte] at * <;>
    refine ⟨?_, ?_, ?_, ?_, ?_⟩ <;>
    intros <;>
    cases hc1 : s.car1 <;> cases hc2 : s.car2 <;> cases hc3 : s.car3 <;>
      cases hc4 : s.car4 <;>
    simp_all [loopIter, hns, caseI1, caseI2, caseI1after0, caseI2after0,
      caseI1stage2, caseI2stage2, no_active_cars, active_cars_at,
      active_cars_at_val, hstage]

/-- Witness for C4: the steady-state configuration `steady1`
(intersection 1 green, sub-stage 2, own pedestrian request pending)
hands off to `Intersection2` and resets the stage. -/
theorem arbiter_priority_witness :
    (loopIter steady1).nextState = St.Intersection2 ∧
    stageOf (loopIter steady1) 1 = 0 :=
  (arbiter_priority steady1 1 (Or.inl rfl) rfl rfl rfl).1 rfl

/-- The walk trace is a legal run of the system: every arrow is a `Step`
(loop iterations, the button-2 edge, and counter ticks of timers that
are running at that point). -/
theorem reachable_walkT12 : Reachable walkT12 := by
  have h1 : Step initSys walkT1 := Step.loop initSys
  have h2 : Step walkT1 walkT2 := Step.loop walkT1
  have h3 : Step walkT2 walkT3 := Step.button2 walkT2
  have h4 : Step walkT3 walkT4 := Step.loop walkT3
  have h5 : Step walkT4 walkT5 := Step.loop walkT4
  have h6 : Step walkT5 walkT6 := Step.tick4 walkT5 TIMER_2s (by decide)
  have h7 : Step walkT6 walkT7 := Step.loop walkT6
  have h8 : Step walkT7 walkT8 := Step.tick4 walkT7 orange_Delay (by decide)
  have h9 : Step walkT8 walkT9 := Step.loop walkT8
  have h10 : Step walkT9 walkT10 := Step.tick4 walkT9 pedestrian_Delay (by decide)
  have h11 : Step walkT10 walkT11 := Step.loop walkT10
  have h12 : Step walkT11 walkT12 := Step.tick5 walkT11 29999 (by decide)
  exact Relation.ReflTransGen.tail (Relation.ReflTransGen.tail
    (Relation.ReflTransGen.tail (Relation.ReflTransGen.tail
    (Relation.ReflTransGen.tail (Relation.ReflTransGen.tail
    (Relation.ReflTransGen.tail (Relation.ReflTransGen.tail
    (Relation.ReflTransGen.tail (Relation.ReflTransGen.tail
    (Relation.ReflTransGen.tail (Relation.ReflTransGen.tail
    Relation.ReflTransGen.refl h1) h2) h3) h4) h5) h6) h7) h8) h9) h10) h11) h12

/-- Claim C3 (counterexample).  In the reachable state `walkT12`,
crosswalk 2 went green after a latched request (the walk timer TIM5 was
armed by `go_pedestrian`) and TIM5's counter has reached its 15 s
auto-reload value of 29999 ticks, yet the period-elapsed callback does
nothing: intersection 2 is still fully red (the Arbiter has not released
it), so the guard `crosswalk2_green && intersection2_green` fails, the
crosswalk stays green past the cap, and the still-latched pending flag
`PL2_SW_HIT` is not cleared. -/
theorem walk_cap_not_enforced_when_arbiter_idle :
    Reachable walkT12 ∧
    walkT12.c2g = true ∧ walkT12.i2r = true ∧ walkT12.i2g = false ∧
    walkT12.tim5run = true ∧ walkT12.tim5cnt = 29999 ∧
    walkT12.pl2 = true ∧
    tim5Callback walkT12 = walkT12 ∧
    (tim5Callback walkT12).c2g = true ∧
    (tim5Callback walkT12).pl2 = true := by
  refine ⟨reachable_walkT12, ?_, ?_, ?_, ?_, ?_, ?_, ?_, ?_, ?_⟩ <;> decide

/-- Claim C3 (amended).  At walk-timer expiry the TIM5 callback forces a
crosswalk back to red — and stops and zeroes TIM5 — only when the bound
intersection is concurrently green (a hand-off has begun); when neither
crosswalk is green together with its intersection the callback leaves
the state untouched, and in no case does it clear a pending-request
flag (those are cleared separately by the TIM3 blink callback once the
crosswalk is green). -/
theorem walk_cap_forced_stop_behaviour (s : Sys) :
    (s.c1g = true → s.i1g = true →
      (tim5Callback s).c1g = false ∧ (tim5Callback s).c1r = true ∧
      (tim5Callback s).tim5run = false ∧ (tim5Callback s).tim5cnt = 0) ∧
    (¬(s.c1g = true ∧ s.i1g = true) → s.c2g = true → s.i2g = true →
      (tim5Callback s).c2g = false ∧ (tim5Callback s).c2r = true ∧
      (tim5Callback s).tim5run = false ∧ (tim5Callback s).tim5cnt = 0) ∧
    (¬(s.c1g = true ∧ s.i1g = true) → ¬(s.c2g = true ∧ s.i2g = true) →
      tim5Callback s = s) ∧
    (tim5Callback s).pl1 = s.pl1 ∧ (tim5Callback s).pl2 = s.pl2 := by
  cases hc1 : s.c1g <;> cases hi1 : s.i1g <;> cases hc2 : s.c2g <;> cases hi2 : s.i2g <;>
    refine ⟨?_, ?_, ?_, ?_, ?_⟩ <;> intros <;>
    first
      | rfl
      | simp_all [tim5Callback, stop_pedestrian]

/-- Witness for the amended C3: in `forcedStop` crosswalk 1 and
intersection 1 are green together, so the callback forces crosswalk 1
red, stops the walk timer, and leaves the (clear) pending flag alone. -/
theorem walk_cap_forced_stop_behaviour_witness :
    (tim5Callback forcedStop).c1g = false ∧ (tim5Callback forcedStop).c1r = true ∧
    (tim5Callback forcedStop).tim5run = false ∧ (tim5Callback forcedStop).tim5cnt = 0 ∧
    (tim5Callback forcedStop).pl1 = forcedStop.pl1 := by
  obtain ⟨h1, _, _, hp, _⟩ := walk_cap_forced_stop_behaviour forcedStop
  obtain ⟨a1, a2, a3, a4⟩ := h1 rfl rfl
  exact ⟨a1, a2, a3, a4, hp⟩

/-! ### Preservation of the inductive invariant -/

theorem inv_initSys : Inv initSys := by
  unfold Inv
  refine ⟨?_, ?_, ?_, ?_, ?_, ?_, ?_, ?_, ?_, ?_, ?_, ?_, ?_⟩ <;> intros <;>
    first
      | decide
      | simp_all [initSys, update_shiftreg_buffer]

/-- Transfer of the invariant to any state that agrees on all
invariant-relevant flags and stages, when no `Traffic` case is in
sub-stage 1 and no sequencer mid-transition: the guarded conjuncts about
`nextState` are all vacuous, so `nextState` may change freely.  This
covers every branch of the `Wait20s`/`Wait30s` cases and of the steady
sub-stage-2 blocks. -/
theorem inv_wait_like (a s : Sys) (h : Inv s)
    (hst : s.stStage = false) (hgo : s.goStage = false)
    (e1 : a.i1g = s.i1g) (e2 : a.i1r = s.i1r)
    (e3 : a.i2g = s.i2g) (e4 : a.i2r = s.i2r)
    (e5 : a.c1g = s.c1g) (e6 : a.c1r = s.c1r)
    (e7 : a.c2g = s.c2g) (e8 : a.c2r = s.c2r)
    (e11 : a.stStage = s.stStage) (e12 : a.goStage = s.goStage)
    (h1a : a.stage1 ≠ 1) (h2a : a.stage2 ≠ 1)
    (hl1a : a.stage1 ≤ 2) (hl2a : a.stage2 ≤ 2) :
    Inv a := by
  obtain ⟨hA, hB1, hB2, hp1, hp2, hr1, hr2, _, _, _, _, _, _⟩ := h
  unfold Inv
  rw [e1, e2, e3, e4, e5, e6, e7, e8, e11, e12]
  exact ⟨hA, hB1, hB2, hp1, hp2, hr1, hr2,
    fun hh => absurd hh h1a, fun hh => absurd hh h2a,
    fun hh => absurd hh (by simp [hst]),
    fun hh => absurd hh (by simp [hgo]), hl1a, hl2a⟩

theorem inv_extiPL1 (s : Sys) (h : Inv s) : Inv (extiPL1 s) := by
  unfold extiPL1
  split
  · simpa [Inv] using h
  · exact h

theorem inv_extiPL2 (s : Sys) (h : Inv s) : Inv (extiPL2 s) := by
  unfold extiPL2
  split
  · simpa [Inv] using h
  · exact h

theorem inv_car1 (s : Sys) (b : Bool) (h : Inv s) : Inv { s with car1 := b } := by
  simpa [Inv] using h

theorem inv_car2 (s : Sys) (b : Bool) (h : Inv s) : Inv { s with car2 := b } := by
  simpa [Inv] using h

theorem inv_car3 (s : Sys) (b : Bool) (h : Inv s) : Inv { s with car3 := b } := by
  simpa [Inv] using h

theorem inv_car4 (s : Sys) (b : Bool) (h : Inv s) : Inv { s with car4 := b } := by
  simpa [Inv] using h

theorem inv_tick3 (s : Sys) (n : Nat) (h : Inv s) : Inv { s with tim3cnt := n } := by
  simpa [Inv] using h

theorem inv_tick4 (s : Sys) (n : Nat) (h : Inv s) : Inv { s with tim4cnt := n } := by
  simpa [Inv] using h

theorem inv_tick5 (s : Sys) (n : Nat) (h : Inv s) : Inv { s with tim5cnt := n } := by
  simpa [Inv] using h

theorem inv_tick15 (s : Sys) (n : Nat) (h : Inv s) : Inv { s with tim15cnt := n } := by
  simpa [Inv] using h

theorem inv_tim3Callback (s : Sys) (h : Inv s) : Inv (tim3Callback s) := by
  unfold tim3Callback toggle_pedestrian
  split_ifs <;> simpa [Inv] using h

theorem inv_tim5Callback (s : Sys) (h : Inv s) : Inv (tim5Callback s) := by
  unfold tim5Callback
  split_ifs with h1 h2
  · simp only [Bool.and_eq_true] at h1
    have := h.2.1 h1.1
    simp_all
  · simp only [Bool.and_eq_true] at h2
    have := h.2.2.1 h2.1
    simp_all
  · exact h

/-! Projection lemmas for the pedestrian and sequencer functions: fields each call leaves untouched, and the concrete values it writes. -/

@[simp] theorem go_intersection_stage1 (s : Sys) (i : Nat) : (go_intersection s i).stage1 = s.stage1 := by
  unfold go_intersection; (try dsimp only); split_ifs <;> first | rfl | simp_all

@[simp] theorem go_intersection_stage2 (s : Sys) (i : Nat) : (go_intersection s i).stage2 = s.stage2 := by
  unfold go_intersection; (try dsimp only); split_ifs <;> first | rfl | simp_all

@[simp] theorem go_intersection_nextState (s : Sys) (i : Nat) : (go_intersection s i).nextState = s.nextState := by
  unfold go_intersection; (try dsimp only); split_ifs <;> first | rfl | simp_all

@[simp] theorem go_intersection_state (s : Sys) (i : Nat) : (go_intersection s i).state = s.state := by
  unfold go_intersection; (try dsimp only); split_ifs <;> first | rfl | simp_all

@[simp] theorem go_intersection_pl1 (s : Sys) (i : Nat) : (go_intersection s i).pl1 = s.pl1 := by
  unfold go_intersection; (try dsimp only); split_ifs <;> first | rfl | simp_all

@[simp] theorem go_intersection_pl2 (s : Sys) (i : Nat) : (go_intersection s i).pl2 = s.pl2 := by
  unfold go_intersection; (try dsimp only); split_ifs <;> first | rfl | simp_all

@[simp] theorem go_intersection_tpToggle (s : Sys) (i : Nat) : (go_intersection s i).tpToggle = s.tpToggle := by
  unfold go_intersection; (try dsimp only); split_ifs <;> first | rfl | simp_all

@[simp] theorem go_intersection_c1g (s : Sys) (i : Nat) : (go_intersection s i).c1g = s.c1g := by
  unfold go_intersection; (try dsimp only); split_ifs <;> first | rfl | simp_all

@[simp] theorem go_intersection_c1r (s : Sys) (i : Nat) : (go_intersection s i).c1r = s.c1r := by
  unfold go_intersection; (try dsimp only); split_ifs <;> first | rfl | simp_all

@[simp] theorem go_intersection_c2g (s : Sys) (i : Nat) : (go_intersection s i).c2g = s.c2g := by
  unfold go_intersection; (try dsimp only); split_ifs <;> first | rfl | simp_all

@[simp] theorem go_intersection_c2r (s : Sys) (i : Nat) : (go_intersection s i).c2r = s.c2r := by
  unfold go_intersection; (try dsimp only); split_ifs <;> first | rfl | simp_all

@[simp] theorem stop_intersection_stage1 (s : Sys) (i : Nat) : (stop_intersection s i).stage1 = s.stage1 := by
  unfold stop_intersection; (try dsimp only); split_ifs <;> first | rfl | simp_all

@[simp] theorem stop_intersection_stage2 (s : Sys) (i : Nat) : (stop_intersection s i).stage2 = s.stage2 := by
  unfold stop_intersection; (try dsimp only); split_ifs <;> first | rfl | simp_all

@[simp] theorem stop_intersection_nextState (s : Sys) (i : Nat) : (stop_intersection s i).nextState = s.nextState := by
  unfold stop_intersection; (try dsimp only); split_ifs <;> first | rfl | simp_all

@[simp] theorem stop_intersection_state (s : Sys) (i : Nat) : (stop_intersection s i).state = s.state := by
  unfold stop_intersection; (try dsimp only); split_ifs <;> first | rfl | simp_all

@[simp] theorem stop_intersection_pl1 (s : Sys) (i : Nat) : (stop_intersection s i).pl1 = s.pl1 := by
  unfold stop_intersection; (try dsimp only); split_ifs <;> first | rfl | simp_all

@[simp] theorem stop_intersection_pl2 (s : Sys) (i : Nat) : (stop_intersection s i).pl2 = s.pl2 := by
  unfold stop_intersection; (try dsimp only); split_ifs <;> first | rfl | simp_all

@[simp] theorem stop_intersection_tpToggle (s : Sys) (i : Nat) : (stop_intersection s i).tpToggle = s.tpToggle := by
  unfold stop_intersection; (try dsimp only); split_ifs <;> first | rfl | simp_all

@[simp] theorem stop_intersection_c1g (s : Sys) (i : Nat) : (stop_intersection s i).c1g = s.c1g := by
  unfold stop_intersection; (try dsimp only); split_ifs <;> first | rfl | simp_all

@[simp] theorem stop_intersection_c1r (s : Sys) (i : Nat) : (stop_intersection s i).c1r = s.c1r := by
  unfold stop_intersection; (try dsimp only); split_ifs <;> first | rfl | simp_all

@[simp] theorem stop_intersection_c2g (s : Sys) (i : Nat) : (stop_intersection s i).c2g = s.c2g := by
  unfold stop_intersection; (try dsimp only); split_ifs <;> first | rfl | simp_all

@[simp] theorem stop_intersection_c2r (s : Sys) (i : Nat) : (stop_intersection s i).c2r = s.c2r := by
  unfold stop_intersection; (try dsimp only); split_ifs <;> first | rfl | simp_all

@[simp] theorem go_intersection_stStage (s : Sys) (i : Nat) : (go_intersection s i).stStage = s.stStage := by
  unfold go_intersection; (try dsimp only); split_ifs <;> first | rfl | simp_all

@[simp] theorem stop_intersection_goStage (s : Sys) (i : Nat) : (stop_intersection s i).goStage = s.goStage := by
  unfold stop_intersection; (try dsimp only); split_ifs <;> first | rfl | simp_all

@[simp] theorem go_intersection_1_i2g (s : Sys) : (go_intersection s 1).i2g = s.i2g := by
  unfold go_intersection; (try dsimp only); split_ifs <;> first | rfl | simp_all

@[simp] theorem go_intersection_1_i2r (s : Sys) : (go_intersection s 1).i2r = s.i2r := by
  unfold go_intersection; (try dsimp only); split_ifs <;> first | rfl | simp_all

@[simp] theorem go_intersection_2_i1g (s : Sys) : (go_intersection s 2).i1g = s.i1g := by
  unfold go_intersection; (try dsimp only); split_ifs <;> first | rfl | simp_all

@[simp] theorem go_intersection_2_i1r (s : Sys) : (go_intersection s 2).i1r = s.i1r := by
  unfold go_intersection; (try dsimp only); split_ifs <;> first | rfl | simp_all

@[simp] theorem stop_intersection_1_i2g (s : Sys) : (stop_intersection s 1).i2g = s.i2g := by
  unfold stop_intersection; (try dsimp only); split_ifs <;> first | rfl | simp_all

@[simp] theorem stop_intersection_1_i2r (s : Sys) : (stop_intersection s 1).i2r = s.i2r := by
  unfold stop_intersection; (try dsimp only); split_ifs <;> first | rfl | simp_all

@[simp] theorem stop_intersection_2_i1g (s : Sys) : (stop_intersection s 2).i1g = s.i1g := by
  unfold stop_intersection; (try dsimp only); split_ifs <;> first | rfl | simp_all

@[simp] theorem stop_intersection_2_i1r (s : Sys) : (stop_intersection s 2).i1r = s.i1r := by
  unfold stop_intersection; (try dsimp only); split_ifs <;> first | rfl | simp_all

@[simp] theorem go_pedestrian_1_i1g (s : Sys) : (go_pedestrian s 1).i1g = s.i1g := by
  unfold go_pedestrian; (try dsimp only); split_ifs <;> first | rfl | simp_all

@[simp] theorem go_pedestrian_1_i1r (s : Sys) : (go_pedestrian s 1).i1r = s.i1r := by
  unfold go_pedestrian; (try dsimp only); split_ifs <;> first | rfl | simp_all

@[simp] theorem go_pedestrian_1_i2g (s : Sys) : (go_pedestrian s 1).i2g = s.i2g := by
  unfold go_pedestrian; (try dsimp only); split_ifs <;> first | rfl | simp_all

@[simp] theorem go_pedestrian_1_i2r (s : Sys) : (go_pedestrian s 1).i2r = s.i2r := by
  unfold go_pedestrian; (try dsimp only); split_ifs <;> first | rfl | simp_all

@[simp] theorem go_pedestrian_1_stage1 (s : Sys) : (go_pedestrian s 1).stage1 = s.stage1 := by
  unfold go_pedestrian; (try dsimp only); split_ifs <;> first | rfl | simp_all

@[simp] theorem go_pedestrian_1_stage2 (s : Sys) : (go_pedestrian s 1).stage2 = s.stage2 := by
  unfold go_pedestrian; (try dsimp only); split_ifs <;> first | rfl | simp_all

@[simp] theorem go_pedestrian_1_stStage (s : Sys) : (go_pedestrian s 1).stStage = s.stStage := by
  unfold go_pedestrian; (try dsimp only); split_ifs <;> first | rfl | simp_all

@[simp] theorem go_pedestrian_1_goStage (s : Sys) : (go_pedestrian s 1).goStage = s.goStage := by
  unfold go_pedestrian; (try dsimp only); split_ifs <;> first | rfl | simp_all

@[simp] theorem go_pedestrian_1_nextState (s : Sys) : (go_pedestrian s 1).nextState = s.nextState := by
  unfold go_pedestrian; (try dsimp only); split_ifs <;> first | rfl | simp_all

@[simp] theorem go_pedestrian_1_state (s : Sys) : (go_pedestrian s 1).state = s.state := by
  unfold go_pedestrian; (try dsimp only); split_ifs <;> first | rfl | simp_all

@[simp] theorem go_pedestrian_1_pl1 (s : Sys) : (go_pedestrian s 1).pl1 = s.pl1 := by
  unfold go_pedestrian; (try dsimp only); split_ifs <;> first | rfl | simp_all

@[simp] theorem go_pedestrian_1_pl2 (s : Sys) : (go_pedestrian s 1).pl2 = s.pl2 := by
  unfold go_pedestrian; (try dsimp only); split_ifs <;> first | rfl | simp_all

@[simp] theorem go_pedestrian_1_tpToggle (s : Sys) : (go_pedestrian s 1).tpToggle = s.tpToggle := by
  unfold go_pedestrian; (try dsimp only); split_ifs <;> first | rfl | simp_all

@[simp] theorem go_pedestrian_2_i1g (s : Sys) : (go_pedestrian s 2).i1g = s.i1g := by
  unfold go_pedestrian; (try dsimp only); split_ifs <;> first | rfl | simp_all

@[simp] theorem go_pedestrian_2_i1r (s : Sys) : (go_pedestrian s 2).i1r = s.i1r := by
  unfold go_pedestrian; (try dsimp only); split_ifs <;> first | rfl | simp_all

@[simp] theorem go_pedestrian_2_i2g (s : Sys) : (go_pedestrian s 2).i2g = s.i2g := by
  unfold go_pedestrian; (try dsimp only); split_ifs <;> first | rfl | simp_all

@[simp] theorem go_pedestrian_2_i2r (s : Sys) : (go_pedestrian s 2).i2r = s.i2r := by
  unfold go_pedestrian; (try dsimp only); split_ifs <;> first | rfl | simp_all

@[simp] theorem go_pedestrian_2_stage1 (s : Sys) : (go_pedestrian s 2).stage1 = s.stage1 := by
  unfold go_pedestrian; (try dsimp only); split_ifs <;> first | rfl | simp_all

@[simp] theorem go_pedestrian_2_stage2 (s : Sys) : (go_pedestrian s 2).stage2 = s.stage2 := by
  unfold go_pedestrian; (try dsimp only); split_ifs <;> first | rfl | simp_all

@[simp] theorem go_pedestrian_2_stStage (s : Sys) : (go_pedestrian s 2).stStage = s.stStage := by
  unfold go_pedestrian; (try dsimp only); split_ifs <;> first | rfl | simp_all

@[simp] theorem go_pedestrian_2_goStage (s : Sys) : (go_pedestrian s 2).goStage = s.goStage := by
  unfold go_pedestrian; (try dsimp only); split_ifs <;> first | rfl | simp_all

@[simp] theorem go_pedestrian_2_nextState (s : Sys) : (go_pedestrian s 2).nextState = s.nextState := by
  unfold go_pedestrian; (try dsimp only); split_ifs <;> first | rfl | simp_all

@[simp] theorem go_pedestrian_2_state (s : Sys) : (go_pedestrian s 2).state = s.state := by
  unfold go_pedestrian; (try dsimp only); split_ifs <;> first | rfl | simp_all

@[simp] theorem go_pedestrian_2_pl1 (s : Sys) : (go_pedestrian s 2).pl1 = s.pl1 := by
  unfold go_pedestrian; (try dsimp only); split_ifs <;> first | rfl | simp_all

@[simp] theorem go_pedestrian_2_pl2 (s : Sys) : (go_pedestrian s 2).pl2 = s.pl2 := by
  unfold go_pedestrian; (try dsimp only); split_ifs <;> first | rfl | simp_all

@[simp] theorem go_pedestrian_2_tpToggle (s : Sys) : (go_pedestrian s 2).tpToggle = s.tpToggle := by
  unfold go_pedestrian; (try dsimp only); split_ifs <;> first | rfl | simp_all

@[simp] theorem stop_pedestrian_1_i1g (s : Sys) : (stop_pedestrian s 1).i1g = s.i1g := by
  unfold stop_pedestrian; (try dsimp only); split_ifs <;> first | rfl | simp_all

@[simp] theorem stop_pedestrian_1_i1r (s : Sys) : (stop_pedestrian s 1).i1r = s.i1r := by
  unfold stop_pedestrian; (try dsimp only); split_ifs <;> first | rfl | simp_all

@[simp] theorem stop_pedestrian_1_i2g (s : Sys) : (stop_pedestrian s 1).i2g = s.i2g := by
  unfold stop_pedestrian; (try dsimp only); split_ifs <;> first | rfl | simp_all

@[simp] theorem stop_pedestrian_1_i2r (s : Sys) : (stop_pedestrian s 1).i2r = s.i2r := by
  unfold stop_pedestrian; (try dsimp only); split_ifs <;> first | rfl | simp_all

@[simp] theorem stop_pedestrian_1_stage1 (s : Sys) : (stop_pedestrian s 1).stage1 = s.stage1 := by
  unfold stop_pedestrian; (try dsimp only); split_ifs <;> first | rfl | simp_all

@[simp] theorem stop_pedestrian_1_stage2 (s : Sys) : (stop_pedestrian s 1).stage2 = s.stage2 := by
  unfold stop_pedestrian; (try dsimp only); split_ifs <;> first | rfl | simp_all

@[simp] theorem stop_pedestrian_1_stStage (s : Sys) : (stop_pedestrian s 1).stStage = s.stStage := by
  unfold stop_pedestrian; (try dsimp only); split_ifs <;> first | rfl | simp_all

@[simp] theorem stop_pedestrian_1_goStage (s : Sys) : (stop_pedestrian s 1).goStage = s.goStage := by
  unfold stop_pedestrian; (try dsimp only); split_ifs <;> first | rfl | simp_all

@[simp] theorem stop_pedestrian_1_nextState (s : Sys) : (stop_pedestrian s 1).nextState = s.nextState := by
  unfold stop_pedestrian; (try dsimp only); split_ifs <;> first | rfl | simp_all

@[simp] theorem stop_pedestrian_1_state (s : Sys) : (stop_pedestrian s 1).state = s.state := by
  unfold stop_pedestrian; (try dsimp only); split_ifs <;> first | rfl | simp_all

@[simp] theorem stop_pedestrian_1_pl1 (s : Sys) : (stop_pedestrian s 1).pl1 = s.pl1 := by
  unfold stop_pedestrian; (try dsimp only); split_ifs <;> first | rfl | simp_all

@[simp] theorem stop_pedestrian_1_pl2 (s : Sys) : (stop_pedestrian s 1).pl2 = s.pl2 := by
  unfold stop_pedestrian; (try dsimp only); split_ifs <;> first | rfl | simp_all

@[simp] theorem stop_pedestrian_1_tpToggle (s : Sys) : (stop_pedestrian s 1).tpToggle = s.tpToggle := by
  unfold stop_pedestrian; (try dsimp only); split_ifs <;> first | rfl | simp_all

@[simp] theorem stop_pedestrian_2_i1g (s : Sys) : (stop_pedestrian s 2).i1g = s.i1g := by
  unfold stop_pedestrian; (try dsimp only); split_ifs <;> first | rfl | simp_all

@[simp] theorem stop_pedestrian_2_i1r (s : Sys) : (stop_pedestrian s 2).i1r = s.i1r := by
  unfold stop_pedestrian; (try dsimp only); split_ifs <;> first | rfl | simp_all

@[simp] theorem stop_pedestrian_2_i2g (s : Sys) : (stop_pedestrian s 2).i2g = s.i2g := by
  unfold stop_pedestrian; (try dsimp only); split_ifs <;> first | rfl | simp_all

@[simp] theorem stop_pedestrian_2_i2r (s : Sys) : (stop_pedestrian s 2).i2r = s.i2r := by
  unfold stop_pedestrian; (try dsimp only); split_ifs <;> first | rfl | simp_all

@[simp] theorem stop_pedestrian_2_stage1 (s : Sys) : (stop_pedestrian s 2).stage1 = s.stage1 := by
  unfold stop_pedestrian; (try dsimp only); split_ifs <;> first | rfl | simp_all

@[simp] theorem stop_pedestrian_2_stage2 (s : Sys) : (stop_pedestrian s 2).stage2 = s.stage2 := by
  unfold stop_pedestrian; (try dsimp only); split_ifs <;> first | rfl | simp_all

@[simp] theorem stop_pedestrian_2_stStage (s : Sys) : (stop_pedestrian s 2).stStage = s.stStage := by
  unfold stop_pedestrian; (try dsimp only); split_ifs <;> first | rfl | simp_all

@[simp] theorem stop_pedestrian_2_goStage (s : Sys) : (stop_pedestrian s 2).goStage = s.goStage := by
  unfold stop_pedestrian; (try dsimp only); split_ifs <;> first | rfl | simp_all

@[simp] theorem stop_pedestrian_2_nextState (s : Sys) : (stop_pedestrian s 2).nextState = s.nextState := by
  unfold stop_pedestrian; (try dsimp only); split_ifs <;> first | rfl | simp_all

@[simp] theorem stop_pedestrian_2_state (s : Sys) : (stop_pedestrian s 2).state = s.state := by
  unfold stop_pedestrian; (try dsimp only); split_ifs <;> first | rfl | simp_all

@[simp] theorem stop_pedestrian_2_pl1 (s : Sys) : (stop_pedestrian s 2).pl1 = s.pl1 := by
  unfold stop_pedestrian; (try dsimp only); split_ifs <;> first | rfl | simp_all

@[simp] theorem stop_pedestrian_2_pl2 (s : Sys) : (stop_pedestrian s 2).pl2 = s.pl2 := by
  unfold stop_pedestrian; (try dsimp only); split_ifs <;> first | rfl | simp_all

@[simp] theorem stop_pedestrian_2_tpToggle (s : Sys) : (stop_pedestrian s 2).tpToggle = s.tpToggle := by
  unfold stop_pedestrian; (try dsimp only); split_ifs <;> first | rfl | simp_all

@[simp] theorem go_pedestrian_1_c1g (s : Sys) : (go_pedestrian s 1).c1g = true := by
  unfold go_pedestrian; (try dsimp only); split_ifs <;> first | rfl | simp_all

@[simp] theorem go_pedestrian_1_c1r (s : Sys) : (go_pedestrian s 1).c1r = false := by
  unfold go_pedestrian; (try dsimp only); split_ifs <;> first | rfl | simp_all

@[simp] theorem go_pedestrian_1_c2g (s : Sys) : (go_pedestrian s 1).c2g = s.c2g := by
  unfold go_pedestrian; (try dsimp only); split_ifs <;> first | rfl | simp_all

@[simp] theorem go_pedestrian_1_c2r (s : Sys) : (go_pedestrian s 1).c2r = s.c2r := by
  unfold go_pedestrian; (try dsimp only); split_ifs <;> first | rfl | simp_all

@[simp] theorem go_pedestrian_2_c2g (s : Sys) : (go_pedestrian s 2).c2g = true := by
  unfold go_pedestrian; (try dsimp only); split_ifs <;> first | rfl | simp_all

@[simp] theorem go_pedestrian_2_c2r (s : Sys) : (go_pedestrian s 2).c2r = false := by
  unfold go_pedestrian; (try dsimp only); split_ifs <;> first | rfl | simp_all

@[simp] theorem go_pedestrian_2_c1g (s : Sys) : (go_pedestrian s 2).c1g = s.c1g := by
  unfold go_pedestrian; (try dsimp only); split_ifs <;> first | rfl | simp_all

@[simp] theorem go_pedestrian_2_c1r (s : Sys) : (go_pedestrian s 2).c1r = s.c1r := by
  unfold go_pedestrian; (try dsimp only); split_ifs <;> first | rfl | simp_all

@[simp] theorem stop_pedestrian_1_c1g (s : Sys) : (stop_pedestrian s 1).c1g = false := by
  unfold stop_pedestrian; (try dsimp only); split_ifs <;> first | rfl | simp_all

@[simp] theorem stop_pedestrian_1_c1r (s : Sys) : (stop_pedestrian s 1).c1r = true := by
  unfold stop_pedestrian; (try dsimp only); split_ifs <;> first | rfl | simp_all

@[simp] theorem stop_pedestrian_1_c2g (s : Sys) : (stop_pedestrian s 1).c2g = s.c2g := by
  unfold stop_pedestrian; (try dsimp only); split_ifs <;> first | rfl | simp_all

@[simp] theorem stop_pedestrian_1_c2r (s : Sys) : (stop_pedestrian s 1).c2r = s.c2r := by
  unfold stop_pedestrian; (try dsimp only); split_ifs <;> first | rfl | simp_all

@[simp] theorem stop_pedestrian_2_c2g (s : Sys) : (stop_pedestrian s 2).c2g = false := by
  unfold stop_pedestrian; (try dsimp only); split_ifs <;> first | rfl | simp_all

@[simp] theorem stop_pedestrian_2_c2r (s : Sys) : (stop_pedestrian s 2).c2r = true := by
  unfold stop_pedestrian; (try dsimp only); split_ifs <;> first | rfl | simp_all

@[simp] theorem stop_pedestrian_2_c1g (s : Sys) : (stop_pedestrian s 2).c1g = s.c1g := by
  unfold stop_pedestrian; (try dsimp only); split_ifs <;> first | rfl | simp_all

@[simp] theorem stop_pedestrian_2_c1r (s : Sys) : (stop_pedestrian s 2).c1r = s.c1r := by
  unfold stop_pedestrian; (try dsimp only); split_ifs <;> first | rfl | simp_all

theorem inv_caseWait20 (s : Sys) (h : Inv s) (hns : s.nextState = St.Wait20s) :
    Inv (caseWait20 s) := by
  obtain ⟨hA, hB1, hB2, hp1, hp2, hr1, hr2, hs1, hs2, hstI, hgoI, hl1, hl2⟩ := h
  have h1 : s.stage1 ≠ 1 := fun hh => by simp [hns] at hs1; exact absurd hh hs1
  have h2 : s.stage2 ≠ 1 := fun hh => by simp [hns] at hs2; exact absurd hh hs2
  have hst : s.stStage = false := by
    cases hq : s.stStage
    · rfl
    · rcases (hstI hq).2.2 with ⟨hx, _⟩ | ⟨hx, _⟩ <;> simp [hns] at hx
  have hgo : s.goStage = false := by
    cases hq : s.goStage
    · rfl
    · rcases hgoI hq with ⟨_, hx, _⟩ | ⟨_, hx, _⟩ <;> simp [hns] at hx
  unfold caseWait20
  dsimp only
  split_ifs <;>
    exact inv_wait_like _ s ⟨hA, hB1, hB2, hp1, hp2, hr1, hr2, hs1, hs2, hstI, hgoI, hl1, hl2⟩
      hst hgo rfl rfl rfl rfl rfl rfl rfl rfl rfl rfl h1 h2 hl1 hl2

theorem inv_caseWait30rest (s : Sys) (h : Inv s) (hns : s.nextState = St.Wait30s) :
    Inv (caseWait30rest s) := by
  obtain ⟨hA, hB1, hB2, hp1, hp2, hr1, hr2, hs1, hs2, hstI, hgoI, hl1, hl2⟩ := h
  have h1 : s.stage1 ≠ 1 := fun hh => by simp [hns] at hs1; exact absurd hh hs1
  have h2 : s.stage2 ≠ 1 := fun hh => by simp [hns] at hs2; exact absurd hh hs2
  have hst : s.stStage = false := by
    cases hq : s.stStage
    · rfl
    · rcases (hstI hq).2.2 with ⟨hx, _⟩ | ⟨hx, _⟩ <;> simp [hns] at hx
  have hgo : s.goStage = false := by
    cases hq : s.goStage
    · rfl
    · rcases hgoI hq with ⟨_, hx, _⟩ | ⟨_, hx, _⟩ <;> simp [hns] at hx
  unfold caseWait30rest
  dsimp only
  split_ifs <;>
    exact inv_wait_like _ s ⟨hA, hB1, hB2, hp1, hp2, hr1, hr2, hs1, hs2, hstI, hgoI, hl1, hl2⟩
      hst hgo rfl rfl rfl rfl rfl rfl rfl rfl rfl rfl h1 h2 hl1 hl2

theorem inv_caseWait30 (s : Sys) (h : Inv s) (hns : s.nextState = St.Wait30s) :
    Inv (caseWait30 s) := by
  obtain ⟨hA, hB1, hB2, hp1, hp2, hr1, hr2, hs1, hs2, hstI, hgoI, hl1, hl2⟩ := h
  have h1 : s.stage1 ≠ 1 := fun hh => by simp [hns] at hs1; exact absurd hh hs1
  have h2 : s.stage2 ≠ 1 := fun hh => by simp [hns] at hs2; exact absurd hh hs2
  have hst : s.stStage = false := by
    cases hq : s.stStage
    · rfl
    · rcases (hstI hq).2.2 with ⟨hx, _⟩ | ⟨hx, _⟩ <;> simp [hns] at hx
  have hgo : s.goStage = false := by
    cases hq : s.goStage
    · rfl
    · rcases hgoI hq with ⟨_, hx, _⟩ | ⟨_, hx, _⟩ <;> simp [hns] at hx
  unfold caseWait30
  dsimp only
  split_ifs with hq1 hq2 hq3
  · exact inv_wait_like _ s ⟨hA, hB1, hB2, hp1, hp2, hr1, hr2, hs1, hs2, hstI, hgoI, hl1, hl2⟩
      hst hgo rfl rfl rfl rfl rfl rfl rfl rfl rfl rfl h1 h2 hl1 hl2
  · exact inv_wait_like _ s ⟨hA, hB1, hB2, hp1, hp2, hr1, hr2, hs1, hs2, hstI, hgoI, hl1, hl2⟩
      hst hgo rfl rfl rfl rfl rfl rfl rfl rfl rfl rfl h1 h2 hl1 hl2
  · exact inv_caseWait30rest _
      (inv_wait_like _ s ⟨hA, hB1, hB2, hp1, hp2, hr1, hr2, hs1, hs2, hstI, hgoI, hl1, hl2⟩
        hst hgo rfl rfl rfl rfl rfl rfl rfl rfl rfl rfl h1 h2 hl1 hl2) hns
  · exact inv_caseWait30rest _
      ⟨hA, hB1, hB2, hp1, hp2, hr1, hr2, hs1, hs2, hstI, hgoI, hl1, hl2⟩ hns

theorem inv_caseI1stage2 (s : Sys) (h : Inv s) (hns : s.nextState = St.Intersection1)
    (hstage : s.stage1 = 2) : Inv (caseI1stage2 s) := by
  obtain ⟨hA, hB1, hB2, hp1, hp2, hr1, hr2, hs1, hs2, hstI, hgoI, hl1, hl2⟩ := h
  have h2 : s.stage2 ≠ 1 := fun hh => by simp [hns] at hs2; exact absurd hh hs2
  have hst : s.stStage = false := by
    cases hq : s.stStage
    · rfl
    · rcases (hstI hq).2.2 with ⟨_, hx, _⟩ | ⟨hx, _⟩ <;> simp [hns, hstage, hx] at *
  have hgo : s.goStage = false := by
    cases hq : s.goStage
    · rfl
    · rcases hgoI hq with ⟨hx, _⟩ | ⟨_, hx, _⟩ <;> simp [hns, hstage, hx] at *
  have hInv : Inv s := ⟨hA, hB1, hB2, hp1, hp2, hr1, hr2, hs1, hs2, hstI, hgoI, hl1, hl2⟩
  unfold caseI1stage2
  split_ifs <;>
    exact inv_wait_like _ s hInv hst hgo rfl rfl rfl rfl rfl rfl rfl rfl rfl rfl
      (by simp) h2 (by simp) hl2

theorem inv_caseI2stage2 (s : Sys) (h : Inv s) (hns : s.nextState = St.Intersection2)
    (hstage : s.stage2 = 2) : Inv (caseI2stage2 s) := by
  obtain ⟨hA, hB1, hB2, hp1, hp2, hr1, hr2, hs1, hs2, hstI, hgoI, hl1, hl2⟩ := h
  have h1 : s.stage1 ≠ 1 := fun hh => by simp [hns] at hs1; exact absurd hh hs1
  have hst : s.stStage = false := by
    cases hq : s.stStage
    · rfl
    · rcases (hstI hq).2.2 with ⟨hx, _⟩ | ⟨_, hx, _⟩ <;> simp [hns, hstage, hx] at *
  have hgo : s.goStage = false := by
    cases hq : s.goStage
    · rfl
    · rcases hgoI hq with ⟨_, hx, _⟩ | ⟨hx, _⟩ <;> simp [hns, hstage, hx] at *
  have hInv : Inv s := ⟨hA, hB1, hB2, hp1, hp2, hr1, hr2, hs1, hs2, hstI, hgoI, hl1, hl2⟩
  unfold caseI2stage2
  split_ifs <;>
    exact inv_wait_like _ s hInv hst hgo rfl rfl rfl rfl rfl rfl rfl rfl rfl rfl
      h1 (by simp) hl1 (by simp)

theorem inv_go1 (s : Sys) (h : Inv s) (hns : s.nextState = St.Intersection1)
    (hstage : s.stage1 = 1) (hc : s.c1r = true) (hg : s.i1g = false) :
    Inv (go_intersection s 1) := by
  obtain ⟨hA, hB1, hB2, hp1, hp2, hr1, hr2, hs1, hs2, hstI, hgoI, hl1, hl2⟩ := h
  have hc1g : s.c1g = false := by rw [hp1] at hc; simpa using hc
  have hi2 : s.i2g = false := (hs1 hstage).2.2
  have h2 : s.stage2 ≠ 1 := fun hh => by simp [hns] at hs2; exact absurd hh hs2
  have hst : s.stStage = false := by
    cases hq : s.stStage
    · rfl
    · rcases (hstI hq).2.2 with ⟨_, hx, _⟩ | ⟨hx, _⟩
      · rw [hstage] at hx; cases hx
      · rw [hns] at hx; cases hx
  unfold go_intersection
  cases hgs : s.goStage
  · simp only [hgs, reduceIte, true_or, or_true, false_or, if_true, Bool.true_eq_false, Bool.false_eq_true, ite_true, ite_false]
    split_ifs with hcnt
    · unfold Inv
      refine ⟨?_, ?_, ?_, ?_, ?_, ?_, ?_, ?_, ?_, ?_, ?_, ?_, ?_⟩ <;> intros <;>
        first
          | rfl
          | simp_all
    · unfold Inv
      refine ⟨?_, ?_, ?_, ?_, ?_, ?_, ?_, ?_, ?_, ?_, ?_, ?_, ?_⟩ <;> intros <;>
        first
          | rfl
          | simp_all
  · have hgood := hgoI hgs
    have hi1r : s.i1r = false := by
      rcases hgood with ⟨_, _, hx, _⟩ | ⟨_, hx, _⟩
      · exact hx
      · rw [hns] at hx; cases hx
    simp only [hgs, reduceIte, true_or, or_true, false_or, if_true, Bool.true_eq_false, Bool.false_eq_true, ite_true, ite_false]
    split_ifs with hcnt
    · unfold Inv
      refine ⟨?_, ?_, ?_, ?_, ?_, ?_, ?_, ?_, ?_, ?_, ?_, ?_, ?_⟩ <;> intros <;>
        first
          | rfl
          | simp_all
    · unfold Inv
      exact ⟨hA, hB1, hB2, hp1, hp2, hr1, hr2, hs1, hs2, hstI, hgoI, hl1, hl2⟩

theorem inv_go2 (s : Sys) (h : Inv s) (hns : s.nextState = St.Intersection2)
    (hstage : s.stage2 = 1) (hc : s.c2r = true) (hg : s.i2g = false) :
    Inv (go_intersection s 2) := by
  obtain ⟨hA, hB1, hB2, hp1, hp2, hr1, hr2, hs1, hs2, hstI, hgoI, hl1, hl2⟩ := h
  have hc2g : s.c2g = false := by rw [hp2] at hc; simpa using hc
  have hi1 : s.i1g = false := (hs2 hstage).2.2
  have h1 : s.stage1 ≠ 1 := fun hh => by simp [hns] at hs1; exact absurd hh hs1
  have hst : s.stStage = false := by
    cases hq : s.stStage
    · rfl
    · rcases (hstI hq).2.2 with ⟨hx, _⟩ | ⟨_, hx, _⟩
      · rw [hns] at hx; cases hx
      · rw [hstage] at hx; cases hx
  unfold go_intersection
  cases hgs : s.goStage
  · simp only [hgs, reduceIte, true_or, or_true, false_or, if_true, Bool.true_eq_false, Bool.false_eq_true, ite_true, ite_false, show ¬((2:Nat) = 1) from by decide]
    split_ifs with hcnt
    · unfold Inv
      refine ⟨?_, ?_, ?_, ?_, ?_, ?_, ?_, ?_, ?_, ?_, ?_, ?_, ?_⟩ <;> intros <;>
        first
          | rfl
          | simp_all
    · unfold Inv
      refine ⟨?_, ?_, ?_, ?_, ?_, ?_, ?_, ?_, ?_, ?_, ?_, ?_, ?_⟩ <;> intros <;>
        first
          | rfl
          | simp_all
  · have hgood := hgoI hgs
    have hi2r : s.i2r = false := by
      rcases hgood with ⟨_, hx, _⟩ | ⟨_, _, hx, _⟩
      · rw [hns] at hx; cases hx
      · exact hx
    simp only [hgs, reduceIte, true_or, or_true, false_or, if_true, Bool.true_eq_false, Bool.false_eq_true, ite_true, ite_false, show ¬((2:Nat) = 1) from by decide]
    split_ifs with hcnt
    · unfold Inv
      refine ⟨?_, ?_, ?_, ?_, ?_, ?_, ?_, ?_, ?_, ?_, ?_, ?_, ?_⟩ <;> intros <;>
        first
          | rfl
          | simp_all
    · unfold Inv
      exact ⟨hA, hB1, hB2, hp1, hp2, hr1, hr2, hs1, hs2, hstI, hgoI, hl1, hl2⟩

theorem inv_stop1 (s : Sys) (h : Inv s) (hns : s.nextState = St.Intersection2)
    (hstage : s.stage2 = 0) (hg2 : s.i2g = false) (hi1r : s.i1r = false) :
    Inv (stop_intersection s 1) := by
  obtain ⟨hA, hB1, hB2, hp1, hp2, hr1, hr2, hs1, hs2, hstI, hgoI, hl1, hl2⟩ := h
  have h1 : s.stage1 ≠ 1 := fun hh => by simp [hns] at hs1; exact absurd hh hs1
  have hc1g : s.c1g = false := by
    cases hq : s.c1g
    · rfl
    · rw [(hB1 hq).1] at hi1r; cases hi1r
  have hgo : s.goStage = false := by
    cases hq : s.goStage
    · rfl
    · rcases hgoI hq with ⟨hx, _⟩ | ⟨hx, _⟩
      · exact absurd hx h1
      · rw [hstage] at hx; cases hx
  unfold stop_intersection
  cases hgs : s.stStage
  · simp only [hgs, reduceIte, true_or, or_true, false_or, if_true, Bool.true_eq_false, Bool.false_eq_true, ite_true, ite_false]
    split_ifs with hcnt
    · unfold Inv
      refine ⟨?_, ?_, ?_, ?_, ?_, ?_, ?_, ?_, ?_, ?_, ?_, ?_, ?_⟩ <;> intros <;>
        first
          | rfl
          | simp_all
    · unfold Inv
      refine ⟨?_, ?_, ?_, ?_, ?_, ?_, ?_, ?_, ?_, ?_, ?_, ?_, ?_⟩ <;> intros <;>
        first
          | rfl
          | simp_all
  · have hgood := hstI hgs
    have hi1g : s.i1g = false := hgood.1
    have hi2gx : s.i2g = false := hgood.2.1
    simp only [hgs, reduceIte, true_or, or_true, false_or, if_true, Bool.true_eq_false, Bool.false_eq_true, ite_true, ite_false]
    split_ifs with hcnt
    · unfold Inv
      refine ⟨?_, ?_, ?_, ?_, ?_, ?_, ?_, ?_, ?_, ?_, ?_, ?_, ?_⟩ <;> intros <;>
        first
          | rfl
          | simp_all
    · unfold Inv
      exact ⟨hA, hB1, hB2, hp1, hp2, hr1, hr2, hs1, hs2, hstI, hgoI, hl1, hl2⟩

theorem inv_stop2 (s : Sys) (h : Inv s) (hns : s.nextState = St.Intersection1)
    (hstage : s.stage1 = 0) (hg1 : s.i1g = false) (hi2r : s.i2r = false) :
    Inv (stop_intersection s 2) := by
  obtain ⟨hA, hB1, hB2, hp1, hp2, hr1, hr2, hs1, hs2, hstI, hgoI, hl1, hl2⟩ := h
  have h2 : s.stage2 ≠ 1 := fun hh => by simp [hns] at hs2; exact absurd hh hs2
  have hc2g : s.c2g = false := by
    cases hq : s.c2g
    · rfl
    · rw [(hB2 hq).1] at hi2r; cases hi2r
  have hgo : s.goStage = false := by
    cases hq : s.goStage
    · rfl
    · rcases hgoI hq with ⟨hx, _⟩ | ⟨hx, _⟩
      · rw [hstage] at hx; cases hx
      · exact absurd hx h2
  unfold stop_intersection
  cases hgs : s.stStage
  · simp only [hgs, reduceIte, true_or, or_true, false_or, if_true, Bool.true_eq_false, Bool.false_eq_true, ite_true, ite_false, show ¬((2:Nat) = 1) from by decide]
    split_ifs with hcnt
    · unfold Inv
      refine ⟨?_, ?_, ?_, ?_, ?_, ?_, ?_, ?_, ?_, ?_, ?_, ?_, ?_⟩ <;> intros <;>
        first
          | rfl
          | simp_all
    · unfold Inv
      refine ⟨?_, ?_, ?_, ?_, ?_, ?_, ?_, ?_, ?_, ?_, ?_, ?_, ?_⟩ <;> intros <;>
        first
          | rfl
          | simp_all
  · have hgood := hstI hgs
    have hi1gx : s.i1g = false := hgood.1
    have hi2g : s.i2g = false := hgood.2.1
    simp only [hgs, reduceIte, true_or, or_true, false_or, if_true, Bool.true_eq_false, Bool.false_eq_true, ite_true, ite_false, show ¬((2:Nat) = 1) from by decide]
    split_ifs with hcnt
    · unfold Inv
      refine ⟨?_, ?_, ?_, ?_, ?_, ?_, ?_, ?_, ?_, ?_, ?_, ?_, ?_⟩ <;> intros <;>
        first
          | rfl
          | simp_all
    · unfold Inv
      exact ⟨hA, hB1, hB2, hp1, hp2, hr1, hr2, hs1, hs2, hstI, hgoI, hl1, hl2⟩

theorem inv_caseI1after0 (s : Sys) (h : Inv s) (hns : s.nextState = St.Intersection1)
    (hstage : s.stage1 = 1 ∨ s.stage1 = 2) : Inv (caseI1after0 s) := by
  obtain ⟨hA, hB1, hB2, hp1, hp2, hr1, hr2, hs1, hs2, hstI, hgoI, hl1, hl2⟩ := h
  have hInv : Inv s := ⟨hA, hB1, hB2, hp1, hp2, hr1, hr2, hs1, hs2, hstI, hgoI, hl1, hl2⟩
  unfold caseI1after0
  rcases hstage with h1 | h2
  · have hc1r : s.c1r = true := (hs1 h1).1
    have hi2g : s.i2g = false := (hs1 h1).2.2
    rw [if_pos ⟨h1, hc1r⟩]
    cases hg : s.i1g
    · simp only [hg, Bool.not_false, if_true, ite_true]
      exact inv_go1 s hInv hns h1 hc1r hg
    · simp only [hg, Bool.not_true, if_false, ite_false]
      have hst : s.stStage = false := by
        cases hq : s.stStage
        · rfl
        · rw [(hstI hq).1] at hg; cases hg
      have hgo : s.goStage = false := by
        cases hq : s.goStage
        · rfl
        · rcases hgoI hq with ⟨_, _, _, hx⟩ | ⟨_, hx, _⟩
          · rw [hx] at hg; cases hg
          · rw [hns] at hx; cases hx
      have h2n : s.stage2 ≠ 1 := fun hh => by simp [hns] at hs2; exact absurd hh hs2
      unfold Inv
      refine ⟨?_, ?_, ?_, ?_, ?_, ?_, ?_, ?_, ?_, ?_, ?_, ?_, ?_⟩ <;> intros <;>
        first
          | rfl
          | simp_all
  · have hns1 : ¬(s.stage1 = 1 ∧ s.c1r = true) := fun hh => by rw [h2] at hh; simp at hh
    rw [if_neg hns1, if_pos h2]
    exact inv_caseI1stage2 s hInv hns h2

theorem inv_pedswitch1 (t : Sys) (h : Inv t) (hns : t.nextState = St.Intersection1)
    (hstage : t.stage1 = 0) (hi1g : t.i1g = false) (hi2r : t.i2r = true) :
    Inv (caseI1after0
      { go_pedestrian (stop_pedestrian { t with tim4run := false, tim4cnt := 0 } 1) 2 with
          tim4run := true, stage1 := 1 }) := by
  obtain ⟨hA, hB1, hB2, hp1, hp2, hr1, hr2, hs1, hs2, hstI, hgoI, hl1, hl2⟩ := h
  have hi2g : t.i2g = false := hr2 hi2r
  have h2n : t.stage2 ≠ 1 := fun hh => by simp [hns] at hs2; exact absurd hh hs2
  have hst : t.stStage = false := by
    cases hq : t.stStage
    · rfl
    · rcases (hstI hq).2.2 with ⟨_, _, hx⟩ | ⟨hx, _⟩
      · rw [hi2r] at hx; cases hx
      · rw [hns] at hx; cases hx
  have hgo : t.goStage = false := by
    cases hq : t.goStage
    · rfl
    · rcases hgoI hq with ⟨hx, _⟩ | ⟨_, hx, _⟩
      · rw [hstage] at hx; cases hx
      · rw [hns] at hx; cases hx
  have hInv4 : Inv { go_pedestrian (stop_pedestrian { t with tim4run := false, tim4cnt := 0 } 1) 2 with
      tim4run := true, stage1 := 1 } := by
    unfold Inv
    refine ⟨?_, ?_, ?_, ?_, ?_, ?_, ?_, ?_, ?_, ?_, ?_, ?_, ?_⟩ <;> intros <;>
      first
        | rfl
        | simp_all
  exact inv_caseI1after0 _ hInv4 (by simp [hns]) (Or.inl (by simp))

theorem inv_caseI1 (s : Sys) (h : Inv s) (hns : s.nextState = St.Intersection1) :
    Inv (caseI1 s) := by
  obtain ⟨hA, hB1, hB2, hp1, hp2, hr1, hr2, hs1, hs2, hstI, hgoI, hl1, hl2⟩ := h
  have hInv : Inv s := ⟨hA, hB1, hB2, hp1, hp2, hr1, hr2, hs1, hs2, hstI, hgoI, hl1, hl2⟩
  unfold caseI1
  by_cases h0 : s.stage1 = 0
  · rw [if_pos h0]
    rcases Bool.eq_false_or_eq_true s.i1g with hg | hg
    · rw [if_pos hg]
      have hc1g : s.c1g = false := by
        cases hq : s.c1g
        · rfl
        · rw [(hB1 hq).2] at hg; cases hg
      have hc1r : s.c1r = true := by rw [hp1, hc1g]; rfl
      have hi2g : s.i2g = false := hA hg
      have h2n : s.stage2 ≠ 1 := fun hh => by simp [hns] at hs2; exact absurd hh hs2
      have hst : s.stStage = false := by
        cases hq : s.stStage
        · rfl
        · rw [(hstI hq).1] at hg; cases hg
      have hgo : s.goStage = false := by
        cases hq : s.goStage
        · rfl
        · rcases hgoI hq with ⟨hx, _⟩ | ⟨_, hx, _⟩
          · rw [h0] at hx; cases hx
          · rw [hns] at hx; cases hx
      clear hInv
      unfold Inv
      refine ⟨?_, ?_, ?_, ?_, ?_, ?_, ?_, ?_, ?_, ?_, ?_, ?_, ?_⟩ <;> intros <;>
        first
          | rfl
          | simp_all
    · rw [if_neg (show ¬(s.i1g = true) from by simp [hg])]
      rcases Bool.eq_false_or_eq_true s.i2r with hi2r | hi2r
      · rw [if_neg (show ¬((!s.i2r) = true) from by simp [hi2r])]
        dsimp only
        split_ifs with hguard
        · exact inv_pedswitch1 s hInv hns h0 hg hi2r
        · exact hInv
      · rw [if_pos (show (!s.i2r) = true from by simp [hi2r])]
        have hInv1 : Inv (stop_intersection s 2) := inv_stop2 s hInv hns h0 hg hi2r
        dsimp only
        split_ifs with hguard
        · have hx1 : (stop_intersection s 2).nextState = St.Intersection1 := by simp [hns]
          have hx2 : (stop_intersection s 2).stage1 = 0 := by simp [h0]
          have hx3 : (stop_intersection s 2).i1g = false := by simp [hg]
          exact inv_pedswitch1 _ hInv1 hx1 hx2 hx3 hguard.1
        · exact hInv1
  · rw [if_neg h0]
    have hsx : s.stage1 = 1 ∨ s.stage1 = 2 := by omega
    exact inv_caseI1after0 s hInv hns hsx

theorem inv_caseI2after0 (s : Sys) (h : Inv s) (hns : s.nextState = St.Intersection2)
    (hstage : s.stage2 = 1 ∨ s.stage2 = 2) : Inv (caseI2after0 s) := by
  obtain ⟨hA, hB1, hB2, hp1, hp2, hr1, hr2, hs1, hs2, hstI, hgoI, hl1, hl2⟩ := h
  have hInv : Inv s := ⟨hA, hB1, hB2, hp1, hp2, hr1, hr2, hs1, hs2, hstI, hgoI, hl1, hl2⟩
  unfold caseI2after0
  rcases hstage with h1 | h2
  · have hc2r : s.c2r = true := (hs2 h1).1
    have hi1g : s.i1g = false := (hs2 h1).2.2
    rw [if_pos ⟨h1, hc2r⟩]
    cases hg : s.i2g
    · simp only [hg, Bool.not_false, if_true, ite_true]
      exact inv_go2 s hInv hns h1 hc2r hg
    · simp only [hg, Bool.not_true, if_false, ite_false]
      have hst : s.stStage = false := by
        cases hq : s.stStage
        · rfl
        · rw [(hstI hq).2.1] at hg; cases hg
      have hgo : s.goStage = false := by
        cases hq : s.goStage
        · rfl
        · rcases hgoI hq with ⟨_, hx, _⟩ | ⟨_, _, _, hx⟩
          · rw [hns] at hx; cases hx
          · rw [hx] at hg; cases hg
      have h1n : s.stage1 ≠ 1 := fun hh => by simp [hns] at hs1; exact absurd hh hs1
      unfold Inv
      refine ⟨?_, ?_, ?_, ?_, ?_, ?_, ?_, ?_, ?_, ?_, ?_, ?_, ?_⟩ <;> intros <;>
        first
          | rfl
          | simp_all
  · have hns1 : ¬(s.stage2 = 1 ∧ s.c2r = true) := fun hh => by rw [h2] at hh; simp at hh
    rw [if_neg hns1, if_pos h2]
    exact inv_caseI2stage2 s hInv hns h2

theorem inv_pedswitch2 (t : Sys) (h : Inv t) (hns : t.nextState = St.Intersection2)
    (hstage : t.stage2 = 0) (hi2g : t.i2g = false) (hi1r : t.i1r = true) :
    Inv (caseI2after0
      { go_pedestrian (stop_pedestrian { t with tim4run := false, tim4cnt := 0 } 2) 1 with
          tim4run := true, stage2 := 1 }) := by
  obtain ⟨hA, hB1, hB2, hp1, hp2, hr1, hr2, hs1, hs2, hstI, hgoI, hl1, hl2⟩ := h
  have hi1g : t.i1g = false := hr1 hi1r
  have h1n : t.stage1 ≠ 1 := fun hh => by simp [hns] at hs1; exact absurd hh hs1
  have hst : t.stStage = false := by
    cases hq : t.stStage
    · rfl
    · rcases (hstI hq).2.2 with ⟨hx, _⟩ | ⟨_, _, hx⟩
      · rw [hns] at hx; cases hx
      · rw [hi1r] at hx; cases hx
  have hgo : t.goStage = false := by
    cases hq : t.goStage
    · rfl
    · rcases hgoI hq with ⟨_, hx, _⟩ | ⟨hx, _⟩
      · rw [hns] at hx; cases hx
      · rw [hstage] at hx; cases hx
  have hInv4 : Inv { go_pedestrian (stop_pedestrian { t with tim4run := false, tim4cnt := 0 } 2) 1 with
      tim4run := true, stage2 := 1 } := by
    unfold Inv
    refine ⟨?_, ?_, ?_, ?_, ?_, ?_, ?_, ?_, ?_, ?_, ?_, ?_, ?_⟩ <;> intros <;>
      first
        | rfl
        | simp_all
  exact inv_caseI2after0 _ hInv4 (by simp [hns]) (Or.inl (by simp))

theorem inv_caseI2 (s : Sys) (h : Inv s) (hns : s.nextState = St.Intersection2) :
    Inv (caseI2 s) := by
  obtain ⟨hA, hB1, hB2, hp1, hp2, hr1, hr2, hs1, hs2, hstI, hgoI, hl1, hl2⟩ := h
  have hInv : Inv s := ⟨hA, hB1, hB2, hp1, hp2, hr1, hr2, hs1, hs2, hstI, hgoI, hl1, hl2⟩
  unfold caseI2
  by_cases h0 : s.stage2 = 0
  · rw [if_pos h0]
    rcases Bool.eq_false_or_eq_true s.i2g with hg | hg
    · rw [if_pos hg]
      have hc2g : s.c2g = false := by
        cases hq : s.c2g
        · rfl
        · rw [(hB2 hq).2] at hg; cases hg
      have hc2r : s.c2r = true := by rw [hp2, hc2g]; rfl
      have hi1g : s.i1g = false := by
        cases hq : s.i1g
        · rfl
        · rw [hA hq] at hg; cases hg
      have h1n : s.stage1 ≠ 1 := fun hh => by simp [hns] at hs1; exact absurd hh hs1
      have hst : s.stStage = false := by
        cases hq : s.stStage
        · rfl
        · rw [(hstI hq).2.1] at hg; cases hg
      have hgo : s.goStage = false := by
        cases hq : s.goStage
        · rfl
        · rcases hgoI hq with ⟨_, hx, _⟩ | ⟨hx, _⟩
          · rw [hns] at hx; cases hx
          · rw [h0] at hx; cases hx
      clear hInv
      unfold Inv
      refine ⟨?_, ?_, ?_, ?_, ?_, ?_, ?_, ?_, ?_, ?_, ?_, ?_, ?_⟩ <;> intros <;>
        first
          | rfl
          | simp_all
    · rw [if_neg (show ¬(s.i2g = true) from by simp [hg])]
      rcases Bool.eq_false_or_eq_true s.i1r with hi1r | hi1r
      · rw [if_neg (show ¬((!s.i1r) = true) from by simp [hi1r])]
        dsimp only
        split_ifs with hguard
        · exact inv_pedswitch2 s hInv hns h0 hg hi1r
        · exact hInv
      · rw [if_pos (show (!s.i1r) = true from by simp [hi1r])]
        have hInv1 : Inv (stop_intersection s 1) := inv_stop1 s hInv hns h0 hg hi1r
        dsimp only
        split_ifs with hguard
        · have hx1 : (stop_intersection s 1).nextState = St.Intersection2 := by simp [hns]
          have hx2 : (stop_intersection s 1).stage2 = 0 := by simp [h0]
          have hx3 : (stop_intersection s 1).i2g = false := by simp [hg]
          exact inv_pedswitch2 _ hInv1 hx1 hx2 hx3 hguard.1
        · exact hInv1
  · rw [if_neg h0]
    have hsx : s.stage2 = 1 ∨ s.stage2 = 2 := by omega
    exact inv_caseI2after0 s hInv hns hsx

theorem inv_loopIter (s : Sys) (h : Inv s) : Inv (loopIter s) := by
  unfold loopIter
  cases hns : s.nextState
  · dsimp only
    refine inv_caseI1 _ ?_ rfl
    unfold Inv at h ⊢
    rw [hns] at h
    exact h
  · dsimp only
    refine inv_caseI2 _ ?_ rfl
    unfold Inv at h ⊢
    rw [hns] at h
    exact h
  · dsimp only
    refine inv_caseWait20 _ ?_ rfl
    unfold Inv at h ⊢
    rw [hns] at h
    exact h
  · dsimp only
    refine inv_caseWait30 _ ?_ rfl
    unfold Inv at h ⊢
    rw [hns] at h
    exact h

theorem inv_step (s s' : Sys) (h : Inv s) (hstep : Step s s') : Inv s' := by
  cases hstep with
  | loop => exact inv_loopIter s h
  | button1 => exact inv_extiPL1 s h
  | button2 => exact inv_extiPL2 s h
  | carEdge1 b => exact inv_car1 s b h
  | carEdge2 b => exact inv_car2 s b h
  | carEdge3 b => exact inv_car3 s b h
  | carEdge4 b => exact inv_car4 s b h
  | timer3 _ => exact inv_tim3Callback s h
  | timer5 _ => exact inv_tim5Callback s h
  | tick3 n _ => exact inv_tick3 s n h
  | tick4 n _ => exact inv_tick4 s n h
  | tick5 n _ => exact inv_tick5 s n h
  | tick15 n _ => exact inv_tick15 s n h

/-- Every reachable state satisfies the inductive invariant. -/
theorem reachable_inv (s : Sys) (h : Reachable s) : Inv s := by
  unfold Reachable at h
  induction h with
  | refl => exact inv_initSys
  | tail _ hstep ih => exact inv_step _ _ ih hstep

/-- Claim C1.  In every state reachable by the `Traffic` polling loop
(interleaved with the button, car-sensor and timer interrupts) from the
initial state — intersection 2 green, intersection 1 red — the flags
`intersection1_green` and `intersection2_green` are never both true:
at most one intersection's vehicle lights show green at any time. -/
theorem green_mutual_exclusion (s : Sys) (h : Reachable s) :
    ¬(s.i1g = true ∧ s.i2g = true) := by
  intro ⟨h1, h2⟩
  rw [(reachable_inv s h).1 h1] at h2
  cases h2

/-- Witness for C1: the initial state itself. -/
theorem green_mutual_exclusion_witness :
    ¬(initSys.i1g = true ∧ initSys.i2g = true) :=
  green_mutual_exclusion initSys Relation.ReflTransGen.refl

/-- Claim C2.  In every reachable state, a green crosswalk implies its
bound intersection is fully red: `crosswalk1_green` implies
`intersection1_red` set and `intersection1_green` clear (not
mid-transition), and likewise for crosswalk 2 and intersection 2. -/
theorem crosswalk_green_implies_intersection_red (s : Sys) (h : Reachable s) :
    (s.c1g = true → s.i1r = true ∧ s.i1g = false) ∧
    (s.c2g = true → s.i2r = true ∧ s.i2g = false) :=
  ⟨(reachable_inv s h).2.1, (reachable_inv s h).2.2.1⟩

/-- Witness for C2: in the initial state crosswalk 1 is green, and the
theorem yields that intersection 1 is fully red there. -/
theorem crosswalk_green_implies_intersection_red_witness :
    initSys.c1g = true ∧ initSys.i1r = true ∧ initSys.i1g = false :=
  ⟨rfl, (crosswalk_green_implies_intersection_red initSys
    Relation.ReflTransGen.refl).1 rfl⟩

end TrafficSys
